import Mathlib

/-!
# The `service` command (command/v7/service_command.go)

A shallow embedding of `ServiceCommand` and of its methods.  The command talks to four
collaborators (`UI`, `Config`, `SharedActor`, `Actor`) through interfaces; their
implementations are not part of the sources, so a collaborator is a record of the
answers it gives, and every method of the command returns the ordered trace of the
calls it makes (retrieval calls and UI calls) next to its Go return value.
A Go `error` is `Option GoError`, `nil` being `none`.
-/

set_option linter.dupNamespace false

/-- A non-nil Go `error` value, identified by its message. -/
abbrev GoError := String

namespace types

/-- Modelled from the spec: `types.OptionalString` (package `types` is not among the
sources) is an optional URL. -/
abbrev OptionalString := Option String

/-- Modelled from the spec: the `String()` method of `types.OptionalString`; an absent
optional URL renders as the empty string. -/
def OptionalString.String (s : OptionalString) : String := s.getD ""

/-- Modelled from the spec: `types.OptionalStringSlice` is an ordered sequence of
strings. -/
abbrev OptionalStringSlice := List String

end types

namespace resources

/-- The type of `ServiceInstanceDetails.Type`; the source converts it with `string(..)`. -/
abbrev ServiceInstanceType := String

/-- Modelled from the spec: `resources.LastOperation` (package `resources` is not among
the sources), the five string fields the command reads. -/
structure LastOperation where
  Type_ : String
  State : String
  Description : String
  CreatedAt : String
  UpdatedAt : String
deriving DecidableEq, Repr

/-- The Go zero value `resources.LastOperation{}`. -/
def LastOperation.zero : LastOperation := ⟨"", "", "", "", ""⟩

/-- The fields of `resources.ServiceInstance` read on the guid path. -/
structure ServiceInstance where
  GUID : String
  Name : String
deriving DecidableEq, Repr

/-- The fields of `resources.ServiceOffering` the command reads. -/
structure ServiceOffering where
  Name : String
  Tags : types.OptionalStringSlice
  Description : String
  DocumentationURL : String
deriving DecidableEq, Repr

/-- The field of `resources.ServicePlan` the command reads. -/
structure ServicePlan where
  Name : String
deriving DecidableEq, Repr

end resources

namespace v7action

abbrev Warnings := List String

/-- Modelled from the spec: the upgrade state is a closed variant with three cases. -/
inductive ServiceInstanceUpgradeState
  | ServiceInstanceUpgradeNotSupported
  | ServiceInstanceUpgradeAvailable
  | ServiceInstanceUpgradeNotAvailable
deriving DecidableEq, Repr

structure ServiceInstanceUpgradeStatus where
  State : ServiceInstanceUpgradeState
  Description : String
deriving DecidableEq, Repr

structure UsageSummaryWithSpaceAndOrg where
  SpaceName : String
  OrganizationName : String
  BoundAppCount : Int
deriving DecidableEq, Repr

structure SharedStatus where
  FeatureFlagIsDisabled : Bool
  OfferingDisablesSharing : Bool
  IsSharedToOtherSpaces : Bool
  IsSharedFromOriginalSpace : Bool
  UsageSummary : List UsageSummaryWithSpaceAndOrg
deriving DecidableEq, Repr

/-- A bound application: the fields of a service credential binding the command reads. -/
structure ServiceCredentialBinding where
  AppName : String
  Name : String
  LastOperation : resources.LastOperation
deriving DecidableEq, Repr

/-- The fields of `v7action.ServiceInstanceDetails` the command reads (those of the
embedded `resources.ServiceInstance` are promoted, as in the source). -/
structure ServiceInstanceDetails where
  Name : String
  GUID : String
  Type_ : resources.ServiceInstanceType
  Tags : types.OptionalStringSlice
  RouteServiceURL : types.OptionalString
  SyslogDrainURL : types.OptionalString
  DashboardURL : types.OptionalString
  LastOperation : resources.LastOperation
  SpaceName : String
  OrganizationName : String
  ServiceOffering : resources.ServiceOffering
  ServicePlan : resources.ServicePlan
  ServiceBrokerName : String
  SharedStatus : SharedStatus
  UpgradeStatus : ServiceInstanceUpgradeStatus
  BoundApps : List ServiceCredentialBinding
deriving DecidableEq, Repr

/-- The parameters of a service instance, a JSON object; the command hands them to
`json.MarshalIndent` and reads nothing of them. -/
structure ServiceInstanceParameters where
  entries : List (String × String)
deriving DecidableEq, Repr

end v7action

namespace configv3

structure User where
  Name : String
deriving DecidableEq, Repr

structure Organization where
  GUID : String
  Name : String
deriving DecidableEq, Repr

structure Space where
  GUID : String
  Name : String
deriving DecidableEq, Repr

end configv3

namespace flag

/-- The positional argument `SERVICE_INSTANCE`. -/
structure ServiceInstance where
  ServiceInstance : String
deriving DecidableEq, Repr

end flag

namespace v7

/-- Declarations used by the command whose definitions are not among the sources; they
are parameters of the embedding. -/
structure Externals where
  /-- the constant `resources.UserProvidedServiceInstance` -/
  UserProvidedServiceInstance : resources.ServiceInstanceType
  /-- the constant `ui.DefaultTableSpacePadding` -/
  DefaultTableSpacePadding : Nat
  /-- the `String()` method of `types.OptionalStringSlice` -/
  TagsString : types.OptionalStringSlice → String
  /-- the function `json.MarshalIndent(v, pfx, indent)`, its bytes as a string -/
  MarshalIndent : v7action.ServiceInstanceParameters → String → String → String

/-- A call on the `UI` collaborator.  Template variables (`map[string]interface{}`) are
the list of their key and value pairs in source order. -/
inductive UICall
  | DisplayText (template : String) (vars : List (String × String))
  | DisplayTextWithFlavor (template : String) (vars : List (String × String))
  | DisplayNewline
  | DisplayWarnings (warnings : v7action.Warnings)
  | DisplayKeyValueTable (pfx : String) (table : List (List String)) (padding : Nat)
  | DisplayTableWithHeader (pfx : String) (table : List (List String)) (padding : Nat)
deriving DecidableEq, Repr

/-- A call the command makes on one of its collaborators.  The getters
`Config.TargetedSpace`, `Config.TargetedOrganization` and `UI.TranslateText` have no
effect and are not recorded. -/
inductive Event
  | CheckTarget (targetedOrganizationRequired targetedSpaceRequired : Bool)
  | CurrentUser
  | GetServiceInstanceByNameAndSpace (serviceInstanceName spaceGUID : String)
  | GetServiceInstanceParameters (serviceInstanceName spaceGUID : String)
  | GetServiceInstanceDetails (serviceInstanceName spaceGUID : String) (omitApps : Bool)
  | UI (call : UICall)
deriving DecidableEq, Repr

open UICall

/-- The `UI` collaborator: what `TranslateText` answers. -/
structure UI where
  TranslateText : String → String

/-- The `Config` collaborator: what its methods answer. -/
structure Config where
  CurrentUser : configv3.User × Option GoError
  TargetedOrganization : configv3.Organization
  TargetedSpace : configv3.Space

/-- The `SharedActor` collaborator. -/
structure SharedActor where
  CheckTarget : Bool → Bool → Option GoError

/-- The `Actor` collaborator: the three retrieval calls, each answering a value,
warnings and an error. -/
structure Actor where
  GetServiceInstanceByNameAndSpace :
    String → String → resources.ServiceInstance × v7action.Warnings × Option GoError
  GetServiceInstanceParameters :
    String → String → v7action.ServiceInstanceParameters × v7action.Warnings × Option GoError
  GetServiceInstanceDetails :
    String → String → Bool →
      v7action.ServiceInstanceDetails × v7action.Warnings × Option GoError

structure BaseCommand where
  UI : UI
  Config : Config
  SharedActor : SharedActor
  Actor : Actor

structure ServiceCommand extends BaseCommand where
  RequiredArgs : flag.ServiceInstance
  ShowGUID : Bool
  Params : Bool

/-- The format `fmt.Sprintf("%s %s", a, b)` on two strings. -/
def Sprintf_s_s (a b : String) : String := a ++ " " ++ b

/-- The function `strconv.Itoa`: the decimal representation of an integer. -/
def Itoa (n : Int) : String := toString n

/-- Method `displayIntro`. -/
def ServiceCommand.displayIntro (cmd : ServiceCommand) : List Event × Option GoError :=
  match cmd.Config.CurrentUser with
  | (_, some err) => ([Event.CurrentUser], some err)
  | (user, none) =>
    ([Event.CurrentUser,
      Event.UI (DisplayTextWithFlavor
        "Showing info of service \x7b\x7b.ServiceInstanceName\x7d\x7d in org \x7b\x7b.OrgName\x7d\x7d / space \x7b\x7b.SpaceName\x7d\x7d as \x7b\x7b.Username\x7d\x7d..."
        [("ServiceInstanceName", cmd.RequiredArgs.ServiceInstance),
         ("OrgName", cmd.Config.TargetedOrganization.Name),
         ("SpaceName", cmd.Config.TargetedSpace.Name),
         ("Username", user.Name)]),
      Event.UI DisplayNewline],
     none)

/-- Method `displayPropertiesUserProvided`. -/
def ServiceCommand.displayPropertiesUserProvided (X : Externals) (cmd : ServiceCommand)
    (serviceInstanceWithDetails : v7action.ServiceInstanceDetails) : List UICall :=
  let table : List (List String) := [
    [cmd.UI.TranslateText "name:", serviceInstanceWithDetails.Name],
    [cmd.UI.TranslateText "guid:", serviceInstanceWithDetails.GUID],
    [cmd.UI.TranslateText "type:", serviceInstanceWithDetails.Type_],
    [cmd.UI.TranslateText "tags:", X.TagsString serviceInstanceWithDetails.Tags],
    [cmd.UI.TranslateText "route service url:", serviceInstanceWithDetails.RouteServiceURL.String],
    [cmd.UI.TranslateText "syslog drain url:", serviceInstanceWithDetails.SyslogDrainURL.String]]
  [DisplayKeyValueTable "" table 3, DisplayNewline]

/-- Method `displayPropertiesManaged`. -/
def ServiceCommand.displayPropertiesManaged (X : Externals) (cmd : ServiceCommand)
    (serviceInstanceWithDetails : v7action.ServiceInstanceDetails) : List UICall :=
  let table : List (List String) := [
    [cmd.UI.TranslateText "name:", serviceInstanceWithDetails.Name],
    [cmd.UI.TranslateText "guid:", serviceInstanceWithDetails.GUID],
    [cmd.UI.TranslateText "type:", serviceInstanceWithDetails.Type_],
    [cmd.UI.TranslateText "broker:", serviceInstanceWithDetails.ServiceBrokerName],
    [cmd.UI.TranslateText "offering:", serviceInstanceWithDetails.ServiceOffering.Name],
    [cmd.UI.TranslateText "plan:", serviceInstanceWithDetails.ServicePlan.Name],
    [cmd.UI.TranslateText "tags:", X.TagsString serviceInstanceWithDetails.Tags],
    [cmd.UI.TranslateText "offering tags:",
      X.TagsString serviceInstanceWithDetails.ServiceOffering.Tags],
    [cmd.UI.TranslateText "description:", serviceInstanceWithDetails.ServiceOffering.Description],
    [cmd.UI.TranslateText "documentation:",
      serviceInstanceWithDetails.ServiceOffering.DocumentationURL],
    [cmd.UI.TranslateText "dashboard url:", serviceInstanceWithDetails.DashboardURL.String]]
  [DisplayKeyValueTable "" table 3, DisplayNewline]

/-- Method `displaySharedTo`: the header row, then one row per usage summary line. -/
def ServiceCommand.displaySharedTo (X : Externals)
    (serviceInstanceWithDetails : v7action.ServiceInstanceDetails) : List UICall :=
  let table : List (List String) :=
    serviceInstanceWithDetails.SharedStatus.UsageSummary.foldl
      (fun table usageSummaryLine =>
        table ++ [[usageSummaryLine.OrganizationName, usageSummaryLine.SpaceName,
          Itoa usageSummaryLine.BoundAppCount]])
      [["org", "space", "bindings"]]
  [DisplayTableWithHeader "   " table X.DefaultTableSpacePadding, DisplayNewline]

/-- Method `displaySharingInfo`. -/
def ServiceCommand.displaySharingInfo (X : Externals)
    (serviceInstanceWithDetails : v7action.ServiceInstanceDetails) : List UICall :=
  let t0 := [DisplayText "Sharing:" [], DisplayNewline]
  if serviceInstanceWithDetails.SharedStatus.IsSharedFromOriginalSpace then
    t0 ++ [DisplayText
        "This service instance is shared from space \x7b\x7b.Space\x7d\x7d of org \x7b\x7b.Org\x7d\x7d."
        [("Space", serviceInstanceWithDetails.SpaceName),
         ("Org", serviceInstanceWithDetails.OrganizationName)],
      DisplayNewline]
  else
    let t1 :=
      if serviceInstanceWithDetails.SharedStatus.IsSharedToOtherSpaces then
        t0 ++ [DisplayText "Shared with spaces:" []]
          ++ ServiceCommand.displaySharedTo X serviceInstanceWithDetails
      else
        t0 ++ [DisplayText "This service instance is not currently being shared." [],
          DisplayNewline]
    let t2 :=
      if serviceInstanceWithDetails.SharedStatus.FeatureFlagIsDisabled then
        t1 ++ [DisplayText
            "The \"service_instance_sharing\" feature flag is disabled for this Cloud Foundry platform."
            [],
          DisplayNewline]
      else t1
    if serviceInstanceWithDetails.SharedStatus.OfferingDisablesSharing then
      t2 ++ [DisplayText "Service instance sharing is disabled for this service offering." [],
        DisplayNewline]
    else t2

/-- Method `displayLastOperation`. -/
def ServiceCommand.displayLastOperation (cmd : ServiceCommand)
    (serviceInstanceWithDetails : v7action.ServiceInstanceDetails) : List UICall :=
  let t0 := [DisplayTextWithFlavor
    "Showing status of last operation from service instance \x7b\x7b.ServiceInstanceName\x7d\x7d..."
    [("ServiceInstanceName", serviceInstanceWithDetails.Name)]]
  let t1 :=
    if serviceInstanceWithDetails.LastOperation = resources.LastOperation.zero then
      t0 ++ [DisplayText "There is no last operation available for this service instance." []]
    else
      let status := Sprintf_s_s serviceInstanceWithDetails.LastOperation.Type_
        serviceInstanceWithDetails.LastOperation.State
      let table : List (List String) := [
        [cmd.UI.TranslateText "status:", status],
        [cmd.UI.TranslateText "message:", serviceInstanceWithDetails.LastOperation.Description],
        [cmd.UI.TranslateText "started:", serviceInstanceWithDetails.LastOperation.CreatedAt],
        [cmd.UI.TranslateText "updated:", serviceInstanceWithDetails.LastOperation.UpdatedAt]]
      t0 ++ [DisplayNewline, DisplayKeyValueTable "" table 3]
  t1 ++ [DisplayNewline]

/-- Method `displayUpgrades`. -/
def ServiceCommand.displayUpgrades
    (serviceInstanceWithDetails : v7action.ServiceInstanceDetails) : List UICall :=
  let t0 := [DisplayText "Upgrading:" []]
  let t1 :=
    match serviceInstanceWithDetails.UpgradeStatus.State with
    | .ServiceInstanceUpgradeAvailable =>
      t0 ++ [DisplayText "Showing available upgrade details for this service..." [],
        DisplayNewline,
        DisplayText "Upgrade description: \x7b\x7b.Description\x7d\x7d"
          [("Description", serviceInstanceWithDetails.UpgradeStatus.Description)],
        DisplayNewline,
        DisplayText
          "TIP: You can upgrade using \x27cf upgrade-service \x7b\x7b.InstanceName\x7d\x7d\x27"
          [("InstanceName", serviceInstanceWithDetails.Name)]]
    | .ServiceInstanceUpgradeNotAvailable =>
      t0 ++ [DisplayText "There is no upgrade available for this service." []]
    | _ =>
      t0 ++ [DisplayText "Upgrades are not supported by this broker." []]
  t1 ++ [DisplayNewline]

/-- Method `displayBoundApps`. -/
def ServiceCommand.displayBoundApps (X : Externals)
    (serviceInstanceWithDetails : v7action.ServiceInstanceDetails) : List UICall :=
  let t0 := [DisplayText "Bound apps:" []]
  if serviceInstanceWithDetails.BoundApps.length = 0 then
    t0 ++ [DisplayText "There are no bound apps for this service instance." [], DisplayNewline]
  else
    let table : List (List String) :=
      serviceInstanceWithDetails.BoundApps.foldl
        (fun table app =>
          table ++ [[app.AppName, app.Name,
            Sprintf_s_s app.LastOperation.Type_ app.LastOperation.State,
            app.LastOperation.Description]])
        [["name", "binding name", "status", "message"]]
    t0 ++ [DisplayTableWithHeader "   " table X.DefaultTableSpacePadding, DisplayNewline]

/-- Method `fetchAndDisplayGUID`; the warnings of the call are dropped (`_`). -/
def ServiceCommand.fetchAndDisplayGUID (cmd : ServiceCommand) : List Event × Option GoError :=
  let r := cmd.Actor.GetServiceInstanceByNameAndSpace
    cmd.RequiredArgs.ServiceInstance cmd.Config.TargetedSpace.GUID
  let serviceInstance := r.1
  let t0 := [Event.GetServiceInstanceByNameAndSpace
    cmd.RequiredArgs.ServiceInstance cmd.Config.TargetedSpace.GUID]
  match r.2.2 with
  | some err => (t0, some err)
  | none => (t0 ++ [Event.UI (DisplayText serviceInstance.GUID [])], none)

/-- Method `fetchAndDisplayParams`. -/
def ServiceCommand.fetchAndDisplayParams (X : Externals) (cmd : ServiceCommand) :
    List Event × Option GoError :=
  let r := cmd.Actor.GetServiceInstanceParameters
    cmd.RequiredArgs.ServiceInstance cmd.Config.TargetedSpace.GUID
  let params := r.1
  let warnings := r.2.1
  let t0 := [Event.GetServiceInstanceParameters
      cmd.RequiredArgs.ServiceInstance cmd.Config.TargetedSpace.GUID,
    Event.UI (DisplayWarnings warnings)]
  match r.2.2 with
  | some err => (t0, some err)
  | none =>
    let data := X.MarshalIndent params "" "  "
    (t0 ++ [Event.UI (DisplayText data [])], none)

/-- Method `fetchAndDisplayDetails`. -/
def ServiceCommand.fetchAndDisplayDetails (X : Externals) (cmd : ServiceCommand) :
    List Event × Option GoError :=
  match cmd.displayIntro with
  | (t0, some err) => (t0, some err)
  | (t0, none) =>
    let r := cmd.Actor.GetServiceInstanceDetails
      cmd.RequiredArgs.ServiceInstance cmd.Config.TargetedSpace.GUID false
    let serviceInstanceWithDetails := r.1
    let warnings := r.2.1
    let t1 := t0 ++ [Event.GetServiceInstanceDetails
        cmd.RequiredArgs.ServiceInstance cmd.Config.TargetedSpace.GUID false,
      Event.UI (DisplayWarnings warnings)]
    match r.2.2 with
    | some err => (t1, some err)
    | none =>
      if serviceInstanceWithDetails.Type_ = X.UserProvidedServiceInstance then
        (t1 ++ (cmd.displayPropertiesUserProvided X serviceInstanceWithDetails
            ++ cmd.displayLastOperation serviceInstanceWithDetails
            ++ ServiceCommand.displayBoundApps X serviceInstanceWithDetails).map Event.UI,
          none)
      else
        (t1 ++ (cmd.displayPropertiesManaged X serviceInstanceWithDetails
            ++ cmd.displayLastOperation serviceInstanceWithDetails
            ++ ServiceCommand.displayBoundApps X serviceInstanceWithDetails
            ++ ServiceCommand.displaySharingInfo X serviceInstanceWithDetails
            ++ ServiceCommand.displayUpgrades serviceInstanceWithDetails).map Event.UI,
          none)

/-- Method `Execute`. -/
def ServiceCommand.Execute (X : Externals) (cmd : ServiceCommand) :
    List Event × Option GoError :=
  match cmd.SharedActor.CheckTarget true true with
  | some err => ([Event.CheckTarget true true], some err)
  | none =>
    let p :=
      if cmd.ShowGUID then cmd.fetchAndDisplayGUID
      else if cmd.Params then cmd.fetchAndDisplayParams X
      else cmd.fetchAndDisplayDetails X
    (Event.CheckTarget true true :: p.1, p.2)

/-! ## Observations on a trace -/

/-- The retrieval calls among the calls of a trace. -/
def retrievalCalls (t : List Event) : List Event :=
  t.filter fun e =>
    match e with
    | .GetServiceInstanceByNameAndSpace _ _ => true
    | .GetServiceInstanceParameters _ _ => true
    | .GetServiceInstanceDetails _ _ _ => true
    | _ => false

/-- The output of a trace: its calls on the `UI`, in order. -/
def output (t : List Event) : List UICall :=
  t.filterMap fun e =>
    match e with
    | .UI call => some call
    | _ => none

/-- The intro line of the detail path, for the user `CurrentUser` answers. -/
def introLine (cmd : ServiceCommand) : UICall :=
  DisplayTextWithFlavor
    "Showing info of service \x7b\x7b.ServiceInstanceName\x7d\x7d in org \x7b\x7b.OrgName\x7d\x7d / space \x7b\x7b.SpaceName\x7d\x7d as \x7b\x7b.Username\x7d\x7d..."
    [("ServiceInstanceName", cmd.RequiredArgs.ServiceInstance),
     ("OrgName", cmd.Config.TargetedOrganization.Name),
     ("SpaceName", cmd.Config.TargetedSpace.Name),
     ("Username", cmd.Config.CurrentUser.1.Name)]

/-- The retrieval call of the guid path. -/
def guidCall (cmd : ServiceCommand) : Event :=
  .GetServiceInstanceByNameAndSpace cmd.RequiredArgs.ServiceInstance cmd.Config.TargetedSpace.GUID

/-- The retrieval call of the params path. -/
def paramsCall (cmd : ServiceCommand) : Event :=
  .GetServiceInstanceParameters cmd.RequiredArgs.ServiceInstance cmd.Config.TargetedSpace.GUID

/-- The retrieval call of the detail path. -/
def detailsCall (cmd : ServiceCommand) : Event :=
  .GetServiceInstanceDetails cmd.RequiredArgs.ServiceInstance cmd.Config.TargetedSpace.GUID false

/-- What the guid retrieval answers for this command. -/
def guidAnswer (cmd : ServiceCommand) :
    resources.ServiceInstance × v7action.Warnings × Option GoError :=
  cmd.Actor.GetServiceInstanceByNameAndSpace
    cmd.RequiredArgs.ServiceInstance cmd.Config.TargetedSpace.GUID

/-- What the parameters retrieval answers for this command. -/
def paramsAnswer (cmd : ServiceCommand) :
    v7action.ServiceInstanceParameters × v7action.Warnings × Option GoError :=
  cmd.Actor.GetServiceInstanceParameters
    cmd.RequiredArgs.ServiceInstance cmd.Config.TargetedSpace.GUID

/-- What the full-detail retrieval answers for this command. -/
def detailsAnswer (cmd : ServiceCommand) :
    v7action.ServiceInstanceDetails × v7action.Warnings × Option GoError :=
  cmd.Actor.GetServiceInstanceDetails
    cmd.RequiredArgs.ServiceInstance cmd.Config.TargetedSpace.GUID false

/-- The calls of the detail path up to and including the display of the warnings. -/
def detailsHead (cmd : ServiceCommand) : List Event :=
  [Event.CurrentUser, Event.UI (introLine cmd), Event.UI DisplayNewline, detailsCall cmd,
    Event.UI (DisplayWarnings (detailsAnswer cmd).2.1)]

/-- The sections of the detail path after the warnings, for fetched details. -/
def detailSections (X : Externals) (cmd : ServiceCommand)
    (d : v7action.ServiceInstanceDetails) : List UICall :=
  if d.Type_ = X.UserProvidedServiceInstance then
    cmd.displayPropertiesUserProvided X d ++ cmd.displayLastOperation d
      ++ ServiceCommand.displayBoundApps X d
  else
    cmd.displayPropertiesManaged X d ++ cmd.displayLastOperation d
      ++ ServiceCommand.displayBoundApps X d ++ ServiceCommand.displaySharingInfo X d
      ++ ServiceCommand.displayUpgrades d

/-- The heading of the last-operation section. -/
def lastOperationHeading (d : v7action.ServiceInstanceDetails) : UICall :=
  DisplayTextWithFlavor
    "Showing status of last operation from service instance \x7b\x7b.ServiceInstanceName\x7d\x7d..."
    [("ServiceInstanceName", d.Name)]

/-- The fixed text of the last-operation section when there is no last operation. -/
def noLastOperationText : UICall :=
  DisplayText "There is no last operation available for this service instance." []

/-- The key-value table of the last-operation section. -/
def lastOperationTable (cmd : ServiceCommand) (d : v7action.ServiceInstanceDetails) : UICall :=
  DisplayKeyValueTable ""
    [[cmd.UI.TranslateText "status:", d.LastOperation.Type_ ++ " " ++ d.LastOperation.State],
     [cmd.UI.TranslateText "message:", d.LastOperation.Description],
     [cmd.UI.TranslateText "started:", d.LastOperation.CreatedAt],
     [cmd.UI.TranslateText "updated:", d.LastOperation.UpdatedAt]]
    3

/-- The templates of the texts of the Sharing section: its header, its three messages
and its two disablement notices. -/
def sharingTemplates : List String :=
  ["Sharing:",
   "This service instance is shared from space \x7b\x7b.Space\x7d\x7d of org \x7b\x7b.Org\x7d\x7d.",
   "Shared with spaces:",
   "This service instance is not currently being shared.",
   "The \"service_instance_sharing\" feature flag is disabled for this Cloud Foundry platform.",
   "Service instance sharing is disabled for this service offering."]

/-- The templates of the texts of the Upgrade section: its header and its messages. -/
def upgradeTemplates : List String :=
  ["Upgrading:",
   "Showing available upgrade details for this service...",
   "Upgrade description: \x7b\x7b.Description\x7d\x7d",
   "TIP: You can upgrade using \x27cf upgrade-service \x7b\x7b.InstanceName\x7d\x7d\x27",
   "There is no upgrade available for this service.",
   "Upgrades are not supported by this broker."]

/-- A call that belongs to the Sharing section: one of its texts, or a table whose
header row is that of the usage summary. -/
def UICall.isSharingCall : UICall → Bool
  | DisplayText template _ => decide (template ∈ sharingTemplates)
  | DisplayTableWithHeader _ table _ => decide (table.head? = some ["org", "space", "bindings"])
  | _ => false

/-- A call that belongs to the Upgrade section: one of its texts. -/
def UICall.isUpgradeCall : UICall → Bool
  | DisplayText template _ => decide (template ∈ upgradeTemplates)
  | _ => false

/-- The properties table of a user-provided instance: six rows. -/
def userProvidedTable (X : Externals) (cmd : ServiceCommand)
    (d : v7action.ServiceInstanceDetails) : UICall :=
  DisplayKeyValueTable ""
    [[cmd.UI.TranslateText "name:", d.Name],
     [cmd.UI.TranslateText "guid:", d.GUID],
     [cmd.UI.TranslateText "type:", d.Type_],
     [cmd.UI.TranslateText "tags:", X.TagsString d.Tags],
     [cmd.UI.TranslateText "route service url:", d.RouteServiceURL.String],
     [cmd.UI.TranslateText "syslog drain url:", d.SyslogDrainURL.String]]
    3

/-- The properties table of a managed instance: eleven rows. -/
def managedTable (X : Externals) (cmd : ServiceCommand)
    (d : v7action.ServiceInstanceDetails) : UICall :=
  DisplayKeyValueTable ""
    [[cmd.UI.TranslateText "name:", d.Name],
     [cmd.UI.TranslateText "guid:", d.GUID],
     [cmd.UI.TranslateText "type:", d.Type_],
     [cmd.UI.TranslateText "broker:", d.ServiceBrokerName],
     [cmd.UI.TranslateText "offering:", d.ServiceOffering.Name],
     [cmd.UI.TranslateText "plan:", d.ServicePlan.Name],
     [cmd.UI.TranslateText "tags:", X.TagsString d.Tags],
     [cmd.UI.TranslateText "offering tags:", X.TagsString d.ServiceOffering.Tags],
     [cmd.UI.TranslateText "description:", d.ServiceOffering.Description],
     [cmd.UI.TranslateText "documentation:", d.ServiceOffering.DocumentationURL],
     [cmd.UI.TranslateText "dashboard url:", d.DashboardURL.String]]
    3

/-- The properties table of the provisioning type of the detail. -/
def propertiesTable (X : Externals) (cmd : ServiceCommand)
    (d : v7action.ServiceInstanceDetails) : UICall :=
  if d.Type_ = X.UserProvidedServiceInstance then userProvidedTable X cmd d
  else managedTable X cmd d

/-- The calls that mark the parts of the detail report: the intro line, the display
of the warnings `ws`, the properties table, and the headings of the last-operation,
bound-apps, sharing and upgrade sections. -/
def reportParts (X : Externals) (cmd : ServiceCommand) (d : v7action.ServiceInstanceDetails)
    (ws : v7action.Warnings) : List UICall :=
  [introLine cmd, DisplayWarnings ws, propertiesTable X cmd d, lastOperationHeading d,
    DisplayText "Bound apps:" [], DisplayText "Sharing:" [], DisplayText "Upgrading:" []]

/-- The message of the Sharing section for an instance shared from its original space. -/
def sharedFromMessage (d : v7action.ServiceInstanceDetails) : UICall :=
  DisplayText
    "This service instance is shared from space \x7b\x7b.Space\x7d\x7d of org \x7b\x7b.Org\x7d\x7d."
    [("Space", d.SpaceName), ("Org", d.OrganizationName)]

/-- The text of the Sharing section for an instance that is not shared. -/
def notSharedText : UICall :=
  DisplayText "This service instance is not currently being shared." []

/-- The platform-level notice: the feature flag of instance sharing is disabled. -/
def featureFlagNotice : UICall :=
  DisplayText
    "The \"service_instance_sharing\" feature flag is disabled for this Cloud Foundry platform."
    []

/-- The broker-level notice: the service offering disables instance sharing. -/
def offeringNotice : UICall :=
  DisplayText "Service instance sharing is disabled for this service offering." []

/-- The disablement notices that end the Sharing section when it does not return
early, each followed by a blank line. -/
def sharingNotices (d : v7action.ServiceInstanceDetails) : List UICall :=
  (if d.SharedStatus.FeatureFlagIsDisabled then [featureFlagNotice, DisplayNewline] else [])
    ++ (if d.SharedStatus.OfferingDisablesSharing then [offeringNotice, DisplayNewline] else [])

/-- The decimal representation of an integer, in the words of the spec (a count
rendered "as decimal"): a minus sign for a negative integer, then the base-ten digits
of its absolute value, most significant first, zero being the one digit `0`. -/
def decimal (n : Int) : String :=
  (if n < 0 then "-" else "")
    ++ String.mk
      (if n.natAbs = 0 then ['0']
        else (Nat.digits 10 n.natAbs).reverse.map Nat.digitChar)

/-! ## Sample collaborators, for evaluating the command -/

/-- Sample values for the external declarations. -/
def sampleExternals : Externals where
  UserProvidedServiceInstance := "user-provided"
  DefaultTableSpacePadding := 3
  TagsString := fun tags => ", ".intercalate tags
  MarshalIndent := fun _ _ _ => "\x7b\x7d"

/-- A sample managed service instance with its details. -/
def sampleDetails : v7action.ServiceInstanceDetails where
  Name := "my-db"
  GUID := "guid-1"
  Type_ := "managed"
  Tags := ["sql"]
  RouteServiceURL := none
  SyslogDrainURL := none
  DashboardURL := some "https://dash.example.com"
  LastOperation := ⟨"create", "succeeded", "done", "t0", "t1"⟩
  SpaceName := "dev"
  OrganizationName := "acme"
  ServiceOffering := ⟨"postgres", ["db"], "a database", "https://doc.example.com"⟩
  ServicePlan := ⟨"small"⟩
  ServiceBrokerName := "broker-1"
  SharedStatus := ⟨false, false, false, false, []⟩
  UpgradeStatus := ⟨.ServiceInstanceUpgradeNotAvailable, ""⟩
  BoundApps := []

/-- A sample user-provided service instance whose bundle nevertheless carries a
sharing status and an available upgrade. -/
def sampleUserProvided : v7action.ServiceInstanceDetails where
  Name := "my-ups"
  GUID := "guid-2"
  Type_ := "user-provided"
  Tags := []
  RouteServiceURL := some "https://route.example.com"
  SyslogDrainURL := none
  DashboardURL := none
  LastOperation := ⟨"", "", "", "", ""⟩
  SpaceName := "dev"
  OrganizationName := "acme"
  ServiceOffering := ⟨"", [], "", ""⟩
  ServicePlan := ⟨""⟩
  ServiceBrokerName := ""
  SharedStatus := ⟨true, true, true, false, [⟨"prod", "acme", 2⟩]⟩
  UpgradeStatus := ⟨.ServiceInstanceUpgradeAvailable, "Adds replica support"⟩
  BoundApps := [⟨"app-1", "binding-1", ⟨"create", "succeeded", "ok", "t0", "t1"⟩⟩]

/-- A sample command: every collaborator succeeds; the retrieval calls answer the
given details, the warnings `["W1"]` and the given error. -/
def sampleCommand (showGUID params : Bool) (details : v7action.ServiceInstanceDetails)
    (userErr retrievalErr : Option GoError) : ServiceCommand where
  UI := ⟨fun s => s⟩
  Config := ⟨(⟨"admin"⟩, userErr), ⟨"org-guid", "acme"⟩, ⟨"space-guid", "dev"⟩⟩
  SharedActor := ⟨fun _ _ => none⟩
  Actor := {
    GetServiceInstanceByNameAndSpace := fun _ _ =>
      (⟨details.GUID, details.Name⟩, ["W1"], retrievalErr)
    GetServiceInstanceParameters := fun _ _ => (⟨[("size", "1")]⟩, ["W1"], retrievalErr)
    GetServiceInstanceDetails := fun _ _ _ => (details, ["W1"], retrievalErr) }
  RequiredArgs := ⟨"my-db"⟩
  ShowGUID := showGUID
  Params := params

/-- The sample managed instance, shared from its original space, with every other
sharing flag set as well. -/
def sampleSharedFrom : v7action.ServiceInstanceDetails :=
  { sampleDetails with SharedStatus := ⟨true, true, true, true, [⟨"prod", "acme", 2⟩]⟩ }

/-- The sample managed instance, shared to two other spaces, on a platform whose
feature flag is disabled. -/
def sampleSharedTo : v7action.ServiceInstanceDetails :=
  { sampleDetails with
    SharedStatus := ⟨true, false, true, false, [⟨"prod", "acme", 2⟩, ⟨"staging", "beta", 0⟩]⟩ }

/-- The sample managed instance with an available upgrade. -/
def sampleUpgradeAvailable : v7action.ServiceInstanceDetails :=
  { sampleDetails with
    UpgradeStatus := ⟨.ServiceInstanceUpgradeAvailable, "Adds replica support"⟩ }

/-- A sample command whose target check fails with `no target`; its other
collaborators are those of `sampleCommand` with every call succeeding. -/
def sampleUntargeted (showGUID params : Bool) : ServiceCommand :=
  { sampleCommand showGUID params sampleDetails none none with
    SharedActor := ⟨fun _ _ => some "no target"⟩ }

/-- The sample managed instance with the empty string as its type. -/
def sampleUntyped : v7action.ServiceInstanceDetails :=
  { sampleDetails with Type_ := "" }

/-- The sample managed instance with a type that is neither of the two known ones. -/
def sampleUnknownType : v7action.ServiceInstanceDetails :=
  { sampleDetails with Type_ := "something-else" }

/-! ## The paths, one equation per outcome -/

theorem displayIntro_ok (cmd : ServiceCommand) (hu : cmd.Config.CurrentUser.2 = none) :
    cmd.displayIntro
      = ([Event.CurrentUser, Event.UI (introLine cmd), Event.UI DisplayNewline], none) := by
  unfold ServiceCommand.displayIntro introLine
  rcases hcu : cmd.Config.CurrentUser with ⟨user, e⟩
  rw [hcu] at hu
  simp only at hu
  subst hu
  rfl

theorem displayIntro_err (cmd : ServiceCommand) (e : GoError)
    (hu : cmd.Config.CurrentUser.2 = some e) :
    cmd.displayIntro = ([Event.CurrentUser], some e) := by
  unfold ServiceCommand.displayIntro
  rcases hcu : cmd.Config.CurrentUser with ⟨user, e0⟩
  rw [hcu] at hu
  simp only at hu
  subst hu
  rfl

theorem fetchAndDisplayGUID_err (cmd : ServiceCommand) (e : GoError)
    (hr : (guidAnswer cmd).2.2 = some e) :
    cmd.fetchAndDisplayGUID = ([guidCall cmd], some e) := by
  unfold guidAnswer at hr
  simp [ServiceCommand.fetchAndDisplayGUID, guidCall, hr]

theorem fetchAndDisplayGUID_ok (cmd : ServiceCommand) (hr : (guidAnswer cmd).2.2 = none) :
    cmd.fetchAndDisplayGUID
      = ([guidCall cmd, Event.UI (DisplayText (guidAnswer cmd).1.GUID [])], none) := by
  unfold guidAnswer at hr
  simp [ServiceCommand.fetchAndDisplayGUID, guidCall, guidAnswer, hr]

theorem fetchAndDisplayParams_err (X : Externals) (cmd : ServiceCommand) (e : GoError)
    (hr : (paramsAnswer cmd).2.2 = some e) :
    cmd.fetchAndDisplayParams X
      = ([paramsCall cmd, Event.UI (DisplayWarnings (paramsAnswer cmd).2.1)], some e) := by
  unfold paramsAnswer at hr
  simp [ServiceCommand.fetchAndDisplayParams, paramsCall, paramsAnswer, hr]

theorem fetchAndDisplayParams_ok (X : Externals) (cmd : ServiceCommand)
    (hr : (paramsAnswer cmd).2.2 = none) :
    cmd.fetchAndDisplayParams X
      = ([paramsCall cmd, Event.UI (DisplayWarnings (paramsAnswer cmd).2.1),
          Event.UI (DisplayText (X.MarshalIndent (paramsAnswer cmd).1 "" "  ") [])], none) := by
  unfold paramsAnswer at hr
  simp [ServiceCommand.fetchAndDisplayParams, paramsCall, paramsAnswer, hr]

theorem fetchAndDisplayDetails_userErr (X : Externals) (cmd : ServiceCommand) (e : GoError)
    (hu : cmd.Config.CurrentUser.2 = some e) :
    cmd.fetchAndDisplayDetails X = ([Event.CurrentUser], some e) := by
  simp [ServiceCommand.fetchAndDisplayDetails, displayIntro_err cmd e hu]

theorem fetchAndDisplayDetails_err (X : Externals) (cmd : ServiceCommand) (e : GoError)
    (hu : cmd.Config.CurrentUser.2 = none) (hr : (detailsAnswer cmd).2.2 = some e) :
    cmd.fetchAndDisplayDetails X = (detailsHead cmd, some e) := by
  unfold detailsAnswer at hr
  simp [ServiceCommand.fetchAndDisplayDetails, displayIntro_ok cmd hu, detailsHead,
    detailsCall, detailsAnswer, hr]

theorem fetchAndDisplayDetails_ok (X : Externals) (cmd : ServiceCommand)
    (hu : cmd.Config.CurrentUser.2 = none) (hr : (detailsAnswer cmd).2.2 = none) :
    cmd.fetchAndDisplayDetails X
      = (detailsHead cmd ++ (detailSections X cmd (detailsAnswer cmd).1).map Event.UI,
          none) := by
  unfold detailsAnswer at hr
  simp only [ServiceCommand.fetchAndDisplayDetails, displayIntro_ok cmd hu, detailsHead,
    detailsCall, detailsAnswer, hr, detailSections]
  split <;> simp

theorem Execute_checked (X : Externals) (cmd : ServiceCommand)
    (hc : cmd.SharedActor.CheckTarget true true = none) :
    cmd.Execute X
      = (Event.CheckTarget true true ::
          (if cmd.ShowGUID then cmd.fetchAndDisplayGUID
            else if cmd.Params then cmd.fetchAndDisplayParams X
            else cmd.fetchAndDisplayDetails X).1,
         (if cmd.ShowGUID then cmd.fetchAndDisplayGUID
            else if cmd.Params then cmd.fetchAndDisplayParams X
            else cmd.fetchAndDisplayDetails X).2) := by
  simp [ServiceCommand.Execute, hc]

theorem output_map_UI (l : List UICall) : output (l.map Event.UI) = l := by
  induction l with
  | nil => rfl
  | cons a l ih => simpa [output] using ih

theorem output_append (s t : List Event) : output (s ++ t) = output s ++ output t := by
  simp [output]

theorem retrievalCalls_append (s t : List Event) :
    retrievalCalls (s ++ t) = retrievalCalls s ++ retrievalCalls t := by
  simp [retrievalCalls]

theorem retrievalCalls_map_UI (l : List UICall) : retrievalCalls (l.map Event.UI) = [] := by
  induction l with
  | nil => rfl
  | cons a l ih => simp [retrievalCalls]

/-! ## Mode selection and the three paths -/

/-- C1 (counterexample): with `CheckTarget` succeeding and both flags false, a failing
`CurrentUser` makes `Execute` return without issuing any retrieval call, so this
invocation does not issue exactly one kind of retrieval call. -/
theorem C1_no_retrieval_when_user_fails :
    (sampleCommand false false sampleDetails (some "no user") none).SharedActor.CheckTarget
        true true = none
      ∧ (sampleCommand false false sampleDetails (some "no user") none).ShowGUID = false
      ∧ (sampleCommand false false sampleDetails (some "no user") none).Params = false
      ∧ retrievalCalls ((sampleCommand false false sampleDetails (some "no user") none).Execute
          sampleExternals).1 = []
      ∧ ((sampleCommand false false sampleDetails (some "no user") none).Execute
          sampleExternals).2 = some "no user" := by
  decide

/-- C1 (amended): with `CheckTarget` succeeding, `Execute` runs exactly one of the three
paths, chosen by priority: `ShowGUID` true gives the guid path whatever `Params` is,
`ShowGUID` false and `Params` true the params path, both false the detail path.  The
retrieval calls of the invocation are exactly one call, of the kind of the selected
path, except on the detail path when `CurrentUser` fails, where there is none. -/
theorem C1_execute_selects_one_path (X : Externals) (cmd : ServiceCommand)
    (hc : cmd.SharedActor.CheckTarget true true = none) :
    (cmd.ShowGUID = true →
      cmd.Execute X
          = (Event.CheckTarget true true :: cmd.fetchAndDisplayGUID.1,
              cmd.fetchAndDisplayGUID.2)
        ∧ retrievalCalls (cmd.Execute X).1 = [guidCall cmd])
    ∧ (cmd.ShowGUID = false → cmd.Params = true →
      cmd.Execute X
          = (Event.CheckTarget true true :: (cmd.fetchAndDisplayParams X).1,
              (cmd.fetchAndDisplayParams X).2)
        ∧ retrievalCalls (cmd.Execute X).1 = [paramsCall cmd])
    ∧ (cmd.ShowGUID = false → cmd.Params = false →
      cmd.Execute X
          = (Event.CheckTarget true true :: (cmd.fetchAndDisplayDetails X).1,
              (cmd.fetchAndDisplayDetails X).2)
        ∧ retrievalCalls (cmd.Execute X).1
          = if cmd.Config.CurrentUser.2 = none then [detailsCall cmd] else []) := by
  refine ⟨fun hg => ?_, fun hg hp => ?_, fun hg hp => ?_⟩
  · refine ⟨by simp [Execute_checked X cmd hc, hg], ?_⟩
    cases hr : (guidAnswer cmd).2.2 with
    | none =>
      simp [Execute_checked X cmd hc, hg, fetchAndDisplayGUID_ok cmd hr, retrievalCalls,
        guidCall]
    | some e =>
      simp [Execute_checked X cmd hc, hg, fetchAndDisplayGUID_err cmd e hr, retrievalCalls,
        guidCall]
  · refine ⟨by simp [Execute_checked X cmd hc, hg, hp], ?_⟩
    cases hr : (paramsAnswer cmd).2.2 with
    | none =>
      simp [Execute_checked X cmd hc, hg, hp, fetchAndDisplayParams_ok X cmd hr,
        retrievalCalls, paramsCall]
    | some e =>
      simp [Execute_checked X cmd hc, hg, hp, fetchAndDisplayParams_err X cmd e hr,
        retrievalCalls, paramsCall]
  · refine ⟨by simp [Execute_checked X cmd hc, hg, hp], ?_⟩
    cases hu : cmd.Config.CurrentUser.2 with
    | some e =>
      simp [Execute_checked X cmd hc, hg, hp, fetchAndDisplayDetails_userErr X cmd e hu,
        retrievalCalls]
    | none =>
      cases hr : (detailsAnswer cmd).2.2 with
      | none =>
        rw [Execute_checked X cmd hc]
        simp only [hg, hp, Bool.false_eq_true, if_false, fetchAndDisplayDetails_ok X cmd hu hr]
        rw [← List.cons_append, retrievalCalls_append, retrievalCalls_map_UI]
        simp [retrievalCalls, detailsHead, detailsCall]
      | some e =>
        simp [Execute_checked X cmd hc, hg, hp, fetchAndDisplayDetails_err X cmd e hu hr,
          retrievalCalls, detailsHead, detailsCall]

/-- C1 (witness): the amended statement at the sample command, once on each path. -/
theorem C1_execute_selects_one_path_witness :
    (sampleCommand true true sampleDetails none none).SharedActor.CheckTarget true true = none
      ∧ (sampleCommand true true sampleDetails none none).ShowGUID = true
      ∧ retrievalCalls
          ((sampleCommand true true sampleDetails none none).Execute sampleExternals).1
        = [guidCall (sampleCommand true true sampleDetails none none)]
      ∧ (sampleCommand false true sampleDetails none none).ShowGUID = false
      ∧ (sampleCommand false true sampleDetails none none).Params = true
      ∧ retrievalCalls
          ((sampleCommand false true sampleDetails none none).Execute sampleExternals).1
        = [paramsCall (sampleCommand false true sampleDetails none none)]
      ∧ (sampleCommand false false sampleDetails none none).ShowGUID = false
      ∧ (sampleCommand false false sampleDetails none none).Params = false
      ∧ retrievalCalls
          ((sampleCommand false false sampleDetails none none).Execute sampleExternals).1
        = [detailsCall (sampleCommand false false sampleDetails none none)] :=
  ⟨rfl, rfl,
    ((C1_execute_selects_one_path sampleExternals
      (sampleCommand true true sampleDetails none none) rfl).1 rfl).2,
    rfl, rfl,
    ((C1_execute_selects_one_path sampleExternals
      (sampleCommand false true sampleDetails none none) rfl).2.1 rfl rfl).2,
    rfl, rfl,
    ((C1_execute_selects_one_path sampleExternals
      (sampleCommand false false sampleDetails none none) rfl).2.2 rfl rfl).2⟩

/-- C2: on the guid path, when the fetch succeeds, the calls of the command are the
target check, the fetch by name and space, and one `DisplayText` of the GUID of the
fetched instance with no template variables; so its whole output is that one call (no
intro, no newline, no warnings, no table), whatever `Params` and the other fields of
the instance are, and it returns no error. -/
theorem C2_guid_path_output (X : Externals) (cmd : ServiceCommand)
    (hc : cmd.SharedActor.CheckTarget true true = none) (hg : cmd.ShowGUID = true)
    (hr : (guidAnswer cmd).2.2 = none) :
    (cmd.Execute X).1
        = [Event.CheckTarget true true, guidCall cmd,
            Event.UI (DisplayText (guidAnswer cmd).1.GUID [])]
      ∧ output (cmd.Execute X).1 = [DisplayText (guidAnswer cmd).1.GUID []]
      ∧ (cmd.Execute X).2 = none := by
  simp [Execute_checked X cmd hc, hg, fetchAndDisplayGUID_ok cmd hr, output, guidCall]

/-- C2 (witness): the sample command with both flags set prints the GUID only. -/
theorem C2_guid_path_output_witness :
    (sampleCommand true true sampleDetails none none).SharedActor.CheckTarget true true = none
      ∧ (sampleCommand true true sampleDetails none none).ShowGUID = true
      ∧ (guidAnswer (sampleCommand true true sampleDetails none none)).2.2 = none
      ∧ output ((sampleCommand true true sampleDetails none none).Execute sampleExternals).1
          = [DisplayText "guid-1" []]
      ∧ ((sampleCommand true true sampleDetails none none).Execute sampleExternals).2 = none :=
  ⟨rfl, rfl, rfl,
    (C2_guid_path_output sampleExternals (sampleCommand true true sampleDetails none none)
      rfl rfl rfl).2⟩

/-! ## Warnings and retrieval failures -/

/-- C3 (counterexample): on the guid path the retrieval call answers the warnings
`["W1"]` together with an error; the command returns the error without displaying the
warnings (its output is empty). -/
theorem C3_guid_path_drops_warnings :
    (sampleCommand true false sampleDetails none (some "boom")).ShowGUID = true
      ∧ (guidAnswer (sampleCommand true false sampleDetails none (some "boom"))).2
          = (["W1"], some "boom")
      ∧ ((sampleCommand true false sampleDetails none (some "boom")).Execute sampleExternals).2
          = some "boom"
      ∧ DisplayWarnings ["W1"] ∉
          output ((sampleCommand true false sampleDetails none (some "boom")).Execute
            sampleExternals).1
      ∧ output ((sampleCommand true false sampleDetails none (some "boom")).Execute
            sampleExternals).1 = [] := by
  decide

/-- C3 (amended): on the params path, and on the detail path once `CurrentUser` has
succeeded, the warnings `ws` and the error `e` (possibly nil) answered together by the
retrieval call of the path are handled alike: the command displays `ws` and returns
`e`.  On the guid path the command returns `e` as well, but it drops the warnings of
the call: its output holds no display of warnings. -/
theorem C3_warnings_then_error (X : Externals) (cmd : ServiceCommand)
    (hc : cmd.SharedActor.CheckTarget true true = none) :
    (cmd.ShowGUID = false → cmd.Params = true →
      DisplayWarnings (paramsAnswer cmd).2.1 ∈ output (cmd.Execute X).1
        ∧ (cmd.Execute X).2 = (paramsAnswer cmd).2.2)
    ∧ (cmd.ShowGUID = false → cmd.Params = false → cmd.Config.CurrentUser.2 = none →
      DisplayWarnings (detailsAnswer cmd).2.1 ∈ output (cmd.Execute X).1
        ∧ (cmd.Execute X).2 = (detailsAnswer cmd).2.2)
    ∧ (cmd.ShowGUID = true →
      (∀ ws, DisplayWarnings ws ∉ output (cmd.Execute X).1)
        ∧ (cmd.Execute X).2 = (guidAnswer cmd).2.2) := by
  refine ⟨fun hg hp => ?_, fun hg hp hu => ?_, fun hg => ?_⟩
  · cases hr : (paramsAnswer cmd).2.2 with
    | none =>
      simp [Execute_checked X cmd hc, hg, hp, fetchAndDisplayParams_ok X cmd hr, output]
    | some e =>
      simp [Execute_checked X cmd hc, hg, hp, fetchAndDisplayParams_err X cmd e hr, output]
  · cases hr : (detailsAnswer cmd).2.2 with
    | none =>
      rw [Execute_checked X cmd hc]
      simp only [hg, hp, Bool.false_eq_true, if_false, fetchAndDisplayDetails_ok X cmd hu hr,
        ← List.cons_append, output_append, output_map_UI]
      simp [output, detailsHead, detailsCall]
    | some e =>
      simp [Execute_checked X cmd hc, hg, hp, fetchAndDisplayDetails_err X cmd e hu hr,
        output, detailsHead, detailsCall]
  · cases hr : (guidAnswer cmd).2.2 with
    | none =>
      simp [Execute_checked X cmd hc, hg, fetchAndDisplayGUID_ok cmd hr, output, guidCall]
    | some e =>
      simp [Execute_checked X cmd hc, hg, fetchAndDisplayGUID_err cmd e hr, output, guidCall]

/-- C3 (witness): the amended statement at the sample command, whose retrieval calls
answer `["W1"]` and the error `boom`, once on each path. -/
theorem C3_warnings_then_error_witness :
    (sampleCommand false true sampleDetails none (some "boom")).SharedActor.CheckTarget
        true true = none
      ∧ (sampleCommand false true sampleDetails none (some "boom")).ShowGUID = false
      ∧ (sampleCommand false true sampleDetails none (some "boom")).Params = true
      ∧ (DisplayWarnings ["W1"]
            ∈ output ((sampleCommand false true sampleDetails none (some "boom")).Execute
                sampleExternals).1
          ∧ ((sampleCommand false true sampleDetails none (some "boom")).Execute
                sampleExternals).2 = some "boom")
      ∧ (sampleCommand false false sampleDetails none (some "boom")).Params = false
      ∧ (sampleCommand false false sampleDetails none (some "boom")).Config.CurrentUser.2 = none
      ∧ (DisplayWarnings ["W1"]
            ∈ output ((sampleCommand false false sampleDetails none (some "boom")).Execute
                sampleExternals).1
          ∧ ((sampleCommand false false sampleDetails none (some "boom")).Execute
                sampleExternals).2 = some "boom")
      ∧ (sampleCommand true false sampleDetails none (some "boom")).ShowGUID = true
      ∧ ((∀ ws, DisplayWarnings ws
            ∉ output ((sampleCommand true false sampleDetails none (some "boom")).Execute
                sampleExternals).1)
          ∧ ((sampleCommand true false sampleDetails none (some "boom")).Execute
                sampleExternals).2 = some "boom") :=
  ⟨rfl, rfl, rfl,
    (C3_warnings_then_error sampleExternals
      (sampleCommand false true sampleDetails none (some "boom")) rfl).1 rfl rfl,
    rfl, rfl,
    (C3_warnings_then_error sampleExternals
      (sampleCommand false false sampleDetails none (some "boom")) rfl).2.1 rfl rfl rfl,
    rfl,
    (C3_warnings_then_error sampleExternals
      (sampleCommand true false sampleDetails none (some "boom")) rfl).2.2 rfl⟩

/-- C4: on the detail path, when `GetServiceInstanceDetails` (issued once `CurrentUser`
has succeeded) answers warnings `ws` together with an error `e`, the output of the
command is the intro line, one blank line and the display of `ws`, in this order and
nothing else (no properties table, last-operation, bound-apps, sharing or upgrade
section), and the command returns `e`. -/
theorem C4_detail_failure_output (X : Externals) (cmd : ServiceCommand) (e : GoError)
    (hc : cmd.SharedActor.CheckTarget true true = none)
    (hg : cmd.ShowGUID = false) (hp : cmd.Params = false)
    (hu : cmd.Config.CurrentUser.2 = none) (hr : (detailsAnswer cmd).2.2 = some e) :
    output (cmd.Execute X).1
        = [introLine cmd, DisplayNewline, DisplayWarnings (detailsAnswer cmd).2.1]
      ∧ (cmd.Execute X).2 = some e
      ∧ output (cmd.fetchAndDisplayDetails X).1
        = [introLine cmd, DisplayNewline, DisplayWarnings (detailsAnswer cmd).2.1]
      ∧ (cmd.fetchAndDisplayDetails X).2 = some e := by
  simp [Execute_checked X cmd hc, hg, hp, fetchAndDisplayDetails_err X cmd e hu hr,
    output, detailsHead, detailsCall]

/-- C4 (witness): the sample command whose full-detail fetch answers `["W1"]` and the
error `boom`. -/
theorem C4_detail_failure_output_witness :
    (sampleCommand false false sampleDetails none (some "boom")).SharedActor.CheckTarget
        true true = none
      ∧ (sampleCommand false false sampleDetails none (some "boom")).ShowGUID = false
      ∧ (sampleCommand false false sampleDetails none (some "boom")).Params = false
      ∧ (sampleCommand false false sampleDetails none (some "boom")).Config.CurrentUser.2 = none
      ∧ (detailsAnswer (sampleCommand false false sampleDetails none (some "boom"))).2.2
          = some "boom"
      ∧ output ((sampleCommand false false sampleDetails none (some "boom")).Execute
            sampleExternals).1
          = [introLine (sampleCommand false false sampleDetails none (some "boom")),
              DisplayNewline, DisplayWarnings ["W1"]]
      ∧ ((sampleCommand false false sampleDetails none (some "boom")).Execute
            sampleExternals).2 = some "boom" :=
  ⟨rfl, rfl, rfl, rfl, rfl,
    (C4_detail_failure_output sampleExternals
      (sampleCommand false false sampleDetails none (some "boom")) "boom"
      rfl rfl rfl rfl rfl).1,
    (C4_detail_failure_output sampleExternals
      (sampleCommand false false sampleDetails none (some "boom")) "boom"
      rfl rfl rfl rfl rfl).2.1⟩

/-- C5 (counterexample): on the detail path the intro line and a blank line are
emitted before the retrieval call, so they are in the output although the call
fails. -/
theorem C5_intro_emitted_before_failure :
    (sampleCommand false false sampleDetails none (some "boom")).ShowGUID = false
      ∧ (sampleCommand false false sampleDetails none (some "boom")).Params = false
      ∧ (detailsAnswer (sampleCommand false false sampleDetails none (some "boom"))).2.2
          = some "boom"
      ∧ ((sampleCommand false false sampleDetails none (some "boom")).Execute
          sampleExternals).1
        = [Event.CheckTarget true true, Event.CurrentUser,
            Event.UI (DisplayTextWithFlavor
              "Showing info of service \x7b\x7b.ServiceInstanceName\x7d\x7d in org \x7b\x7b.OrgName\x7d\x7d / space \x7b\x7b.SpaceName\x7d\x7d as \x7b\x7b.Username\x7d\x7d..."
              [("ServiceInstanceName", "my-db"), ("OrgName", "acme"), ("SpaceName", "dev"),
                ("Username", "admin")]),
            Event.UI DisplayNewline,
            Event.GetServiceInstanceDetails "my-db" "space-guid" false,
            Event.UI (DisplayWarnings ["W1"])] := by
  decide

/-- C5 (amended): when the retrieval call of the selected path returns an error `e`,
the command returns `e` and emits no section after the call: on the guid path it emits
nothing at all, on the params path only the warnings of the call, and on the detail
path (where the call is issued once `CurrentUser` has succeeded) the intro line and a
blank line, both emitted before the call, and then only the warnings of the call. -/
theorem C5_failure_emits_no_section (X : Externals) (cmd : ServiceCommand) (e : GoError)
    (hc : cmd.SharedActor.CheckTarget true true = none) :
    (cmd.ShowGUID = true → (guidAnswer cmd).2.2 = some e →
      cmd.Execute X = ([Event.CheckTarget true true, guidCall cmd], some e))
    ∧ (cmd.ShowGUID = false → cmd.Params = true → (paramsAnswer cmd).2.2 = some e →
      cmd.Execute X
        = ([Event.CheckTarget true true, paramsCall cmd,
            Event.UI (DisplayWarnings (paramsAnswer cmd).2.1)], some e))
    ∧ (cmd.ShowGUID = false → cmd.Params = false → cmd.Config.CurrentUser.2 = none →
        (detailsAnswer cmd).2.2 = some e →
      cmd.Execute X
        = ([Event.CheckTarget true true, Event.CurrentUser, Event.UI (introLine cmd),
            Event.UI DisplayNewline, detailsCall cmd,
            Event.UI (DisplayWarnings (detailsAnswer cmd).2.1)], some e)) := by
  refine ⟨fun hg hr => ?_, fun hg hp hr => ?_, fun hg hp hu hr => ?_⟩
  · simp [Execute_checked X cmd hc, hg, fetchAndDisplayGUID_err cmd e hr]
  · simp [Execute_checked X cmd hc, hg, hp, fetchAndDisplayParams_err X cmd e hr]
  · simp [Execute_checked X cmd hc, hg, hp, fetchAndDisplayDetails_err X cmd e hu hr,
      detailsHead]

/-- C5 (witness): the amended statement at the sample command, whose retrieval calls
fail with `boom`, once on each path. -/
theorem C5_failure_emits_no_section_witness :
    (sampleCommand true false sampleDetails none (some "boom")).SharedActor.CheckTarget
        true true = none
      ∧ (sampleCommand true false sampleDetails none (some "boom")).ShowGUID = true
      ∧ (guidAnswer (sampleCommand true false sampleDetails none (some "boom"))).2.2
          = some "boom"
      ∧ (sampleCommand true false sampleDetails none (some "boom")).Execute sampleExternals
          = ([Event.CheckTarget true true,
              guidCall (sampleCommand true false sampleDetails none (some "boom"))],
            some "boom")
      ∧ (sampleCommand false true sampleDetails none (some "boom")).ShowGUID = false
      ∧ (sampleCommand false true sampleDetails none (some "boom")).Params = true
      ∧ (paramsAnswer (sampleCommand false true sampleDetails none (some "boom"))).2.2
          = some "boom"
      ∧ (sampleCommand false true sampleDetails none (some "boom")).Execute sampleExternals
          = ([Event.CheckTarget true true,
              paramsCall (sampleCommand false true sampleDetails none (some "boom")),
              Event.UI (DisplayWarnings ["W1"])],
            some "boom")
      ∧ (sampleCommand false false sampleDetails none (some "boom")).Params = false
      ∧ (sampleCommand false false sampleDetails none (some "boom")).Config.CurrentUser.2 = none
      ∧ (detailsAnswer (sampleCommand false false sampleDetails none (some "boom"))).2.2
          = some "boom"
      ∧ (sampleCommand false false sampleDetails none (some "boom")).Execute sampleExternals
          = ([Event.CheckTarget true true, Event.CurrentUser,
              Event.UI (introLine (sampleCommand false false sampleDetails none (some "boom"))),
              Event.UI DisplayNewline,
              detailsCall (sampleCommand false false sampleDetails none (some "boom")),
              Event.UI (DisplayWarnings ["W1"])],
            some "boom") :=
  ⟨rfl, rfl, rfl,
    (C5_failure_emits_no_section sampleExternals
      (sampleCommand true false sampleDetails none (some "boom")) "boom" rfl).1 rfl rfl,
    rfl, rfl, rfl,
    (C5_failure_emits_no_section sampleExternals
      (sampleCommand false true sampleDetails none (some "boom")) "boom" rfl).2.1 rfl rfl rfl,
    rfl, rfl, rfl,
    (C5_failure_emits_no_section sampleExternals
      (sampleCommand false false sampleDetails none (some "boom")) "boom" rfl).2.2
        rfl rfl rfl rfl⟩

/-! ## The sections of the detail path -/

theorem foldl_append_row {α : Type} (f : α → List String) (l : List α)
    (init : List (List String)) :
    l.foldl (fun table a => table ++ [f a]) init = init ++ l.map f := by
  induction l generalizing init with
  | nil => simp
  | cons a l ih => simp [ih]

theorem displayLastOperation_zero (cmd : ServiceCommand) (d : v7action.ServiceInstanceDetails)
    (h : d.LastOperation = resources.LastOperation.zero) :
    cmd.displayLastOperation d = [lastOperationHeading d, noLastOperationText, DisplayNewline] := by
  simp [ServiceCommand.displayLastOperation, h, lastOperationHeading, noLastOperationText]

theorem displayLastOperation_nonzero (cmd : ServiceCommand)
    (d : v7action.ServiceInstanceDetails)
    (h : d.LastOperation ≠ resources.LastOperation.zero) :
    cmd.displayLastOperation d
      = [lastOperationHeading d, DisplayNewline, lastOperationTable cmd d, DisplayNewline] := by
  simp [ServiceCommand.displayLastOperation, h, lastOperationHeading, lastOperationTable,
    Sprintf_s_s]

theorem displayBoundApps_empty (X : Externals) (d : v7action.ServiceInstanceDetails)
    (h : d.BoundApps = []) :
    ServiceCommand.displayBoundApps X d
      = [DisplayText "Bound apps:" [],
          DisplayText "There are no bound apps for this service instance." [],
          DisplayNewline] := by
  simp [ServiceCommand.displayBoundApps, h]

theorem displayBoundApps_nonempty (X : Externals) (d : v7action.ServiceInstanceDetails)
    (h : d.BoundApps ≠ []) :
    ServiceCommand.displayBoundApps X d
      = [DisplayText "Bound apps:" [],
          DisplayTableWithHeader "   "
            (["name", "binding name", "status", "message"] ::
              d.BoundApps.map fun app =>
                [app.AppName, app.Name,
                  app.LastOperation.Type_ ++ " " ++ app.LastOperation.State,
                  app.LastOperation.Description])
            X.DefaultTableSpacePadding,
          DisplayNewline] := by
  simp [ServiceCommand.displayBoundApps, h, foldl_append_row, Sprintf_s_s]

theorem displaySharedTo_eq (X : Externals) (d : v7action.ServiceInstanceDetails) :
    ServiceCommand.displaySharedTo X d
      = [DisplayTableWithHeader "   "
            (["org", "space", "bindings"] ::
              d.SharedStatus.UsageSummary.map fun line =>
                [line.OrganizationName, line.SpaceName, Itoa line.BoundAppCount])
            X.DefaultTableSpacePadding,
          DisplayNewline] := by
  simp [ServiceCommand.displaySharedTo, foldl_append_row]

theorem displayPropertiesUserProvided_plain (X : Externals) (cmd : ServiceCommand)
    (d : v7action.ServiceInstanceDetails) :
    ∀ call ∈ cmd.displayPropertiesUserProvided X d,
      call.isSharingCall = false ∧ call.isUpgradeCall = false := by
  intro call hmem
  simp only [ServiceCommand.displayPropertiesUserProvided, List.mem_cons, List.mem_singleton,
    List.not_mem_nil, or_false] at hmem
  rcases hmem with rfl | rfl <;> simp [UICall.isSharingCall, UICall.isUpgradeCall]

theorem displayLastOperation_plain (cmd : ServiceCommand)
    (d : v7action.ServiceInstanceDetails) :
    ∀ call ∈ cmd.displayLastOperation d,
      call.isSharingCall = false ∧ call.isUpgradeCall = false := by
  intro call hmem
  by_cases h : d.LastOperation = resources.LastOperation.zero
  · simp only [displayLastOperation_zero cmd d h, List.mem_cons, List.mem_singleton,
      List.not_mem_nil, or_false] at hmem
    rcases hmem with rfl | rfl | rfl <;>
      simp [UICall.isSharingCall, UICall.isUpgradeCall, lastOperationHeading,
        noLastOperationText, sharingTemplates, upgradeTemplates]
  · simp only [displayLastOperation_nonzero cmd d h, List.mem_cons, List.mem_singleton,
      List.not_mem_nil, or_false] at hmem
    rcases hmem with rfl | rfl | rfl | rfl <;>
      simp [UICall.isSharingCall, UICall.isUpgradeCall, lastOperationHeading,
        lastOperationTable]

theorem displayBoundApps_plain (X : Externals) (d : v7action.ServiceInstanceDetails) :
    ∀ call ∈ ServiceCommand.displayBoundApps X d,
      call.isSharingCall = false ∧ call.isUpgradeCall = false := by
  intro call hmem
  by_cases h : d.BoundApps = []
  · simp only [displayBoundApps_empty X d h, List.mem_cons, List.mem_singleton,
      List.not_mem_nil, or_false] at hmem
    rcases hmem with rfl | rfl | rfl <;>
      simp [UICall.isSharingCall, UICall.isUpgradeCall, sharingTemplates, upgradeTemplates]
  · simp only [displayBoundApps_nonempty X d h, List.mem_cons, List.mem_singleton,
      List.not_mem_nil, or_false] at hmem
    rcases hmem with rfl | rfl | rfl <;>
      simp [UICall.isSharingCall, UICall.isUpgradeCall, sharingTemplates, upgradeTemplates]

theorem displaySharingInfo_calls (X : Externals) (d : v7action.ServiceInstanceDetails) :
    (ServiceCommand.displaySharingInfo X d).head? = some (DisplayText "Sharing:" [])
      ∧ ∀ call ∈ ServiceCommand.displaySharingInfo X d,
          call.isSharingCall = true ∨ call = DisplayNewline := by
  constructor
  · unfold ServiceCommand.displaySharingInfo
    split_ifs <;> simp
  · unfold ServiceCommand.displaySharingInfo
    rw [displaySharedTo_eq]
    split_ifs <;> simp [UICall.isSharingCall, sharingTemplates]

theorem displayUpgrades_calls (d : v7action.ServiceInstanceDetails) :
    (ServiceCommand.displayUpgrades d).head? = some (DisplayText "Upgrading:" [])
      ∧ ∀ call ∈ ServiceCommand.displayUpgrades d,
          call.isUpgradeCall = true ∨ call = DisplayNewline := by
  constructor
  · unfold ServiceCommand.displayUpgrades
    split <;> simp
  · unfold ServiceCommand.displayUpgrades
    split <;> simp [UICall.isUpgradeCall, upgradeTemplates]

theorem output_detailsHead (cmd : ServiceCommand) :
    output (detailsHead cmd)
      = [introLine cmd, DisplayNewline, DisplayWarnings (detailsAnswer cmd).2.1] := by
  simp [output, detailsHead, detailsCall]

theorem output_fetchAndDisplayDetails_ok (X : Externals) (cmd : ServiceCommand)
    (d : v7action.ServiceInstanceDetails) (ws : v7action.Warnings)
    (hu : cmd.Config.CurrentUser.2 = none) (hr : detailsAnswer cmd = (d, ws, none)) :
    cmd.fetchAndDisplayDetails X
        = (detailsHead cmd ++ (detailSections X cmd d).map Event.UI, none)
      ∧ output (cmd.fetchAndDisplayDetails X).1
        = [introLine cmd, DisplayNewline, DisplayWarnings ws] ++ detailSections X cmd d := by
  have h2 : (detailsAnswer cmd).2.2 = none := by rw [hr]
  have h1 : (detailsAnswer cmd).1 = d := by rw [hr]
  have hw : (detailsAnswer cmd).2.1 = ws := by rw [hr]
  rw [fetchAndDisplayDetails_ok X cmd hu h2, h1]
  refine ⟨rfl, ?_⟩
  simp only [output_append, output_map_UI, output_detailsHead, hw]

/-! ## The calls that mark the parts of the detail report -/

theorem filter_parts_intro (X : Externals) (cmd : ServiceCommand)
    (d : v7action.ServiceInstanceDetails) (ws : v7action.Warnings) :
    [introLine cmd, DisplayNewline, DisplayWarnings ws].filter (· ∈ reportParts X cmd d ws)
      = [introLine cmd, DisplayWarnings ws] := by
  unfold reportParts propertiesTable
  split_ifs <;>
    simp [List.filter_cons, introLine, lastOperationHeading, userProvidedTable, managedTable]

theorem filter_parts_propertiesUserProvided (X : Externals) (cmd : ServiceCommand)
    (d : v7action.ServiceInstanceDetails) (ws : v7action.Warnings)
    (ht : d.Type_ = X.UserProvidedServiceInstance) :
    (cmd.displayPropertiesUserProvided X d).filter (· ∈ reportParts X cmd d ws)
      = [userProvidedTable X cmd d] := by
  simp [ServiceCommand.displayPropertiesUserProvided, reportParts, propertiesTable, ht,
    List.filter_cons, introLine, lastOperationHeading, userProvidedTable]

theorem filter_parts_propertiesManaged (X : Externals) (cmd : ServiceCommand)
    (d : v7action.ServiceInstanceDetails) (ws : v7action.Warnings)
    (ht : d.Type_ ≠ X.UserProvidedServiceInstance) :
    (cmd.displayPropertiesManaged X d).filter (· ∈ reportParts X cmd d ws)
      = [managedTable X cmd d] := by
  simp [ServiceCommand.displayPropertiesManaged, reportParts, propertiesTable, ht,
    List.filter_cons, introLine, lastOperationHeading, managedTable]

theorem filter_parts_lastOperation (X : Externals) (cmd : ServiceCommand)
    (d : v7action.ServiceInstanceDetails) (ws : v7action.Warnings) :
    (cmd.displayLastOperation d).filter (· ∈ reportParts X cmd d ws)
      = [lastOperationHeading d] := by
  unfold reportParts propertiesTable
  by_cases h : d.LastOperation = resources.LastOperation.zero
  · rw [displayLastOperation_zero cmd d h]
    split_ifs <;>
      simp [List.filter_cons, introLine, lastOperationHeading, noLastOperationText,
        userProvidedTable, managedTable]
  · rw [displayLastOperation_nonzero cmd d h]
    split_ifs <;>
      simp [List.filter_cons, introLine, lastOperationHeading, lastOperationTable,
        userProvidedTable, managedTable]

theorem filter_parts_boundApps (X : Externals) (cmd : ServiceCommand)
    (d : v7action.ServiceInstanceDetails) (ws : v7action.Warnings) :
    (ServiceCommand.displayBoundApps X d).filter (· ∈ reportParts X cmd d ws)
      = [DisplayText "Bound apps:" []] := by
  unfold reportParts propertiesTable
  by_cases h : d.BoundApps = []
  · rw [displayBoundApps_empty X d h]
    split_ifs <;>
      simp [List.filter_cons, introLine, lastOperationHeading, userProvidedTable,
        managedTable]
  · rw [displayBoundApps_nonempty X d h]
    split_ifs <;>
      simp [List.filter_cons, introLine, lastOperationHeading, userProvidedTable,
        managedTable]

theorem filter_parts_sharingInfo (X : Externals) (cmd : ServiceCommand)
    (d : v7action.ServiceInstanceDetails) (ws : v7action.Warnings) :
    (ServiceCommand.displaySharingInfo X d).filter (· ∈ reportParts X cmd d ws)
      = [DisplayText "Sharing:" []] := by
  unfold ServiceCommand.displaySharingInfo reportParts propertiesTable
  rw [displaySharedTo_eq]
  split_ifs <;>
    simp [List.filter_cons, introLine, lastOperationHeading, userProvidedTable,
      managedTable]

theorem filter_parts_upgrades (X : Externals) (cmd : ServiceCommand)
    (d : v7action.ServiceInstanceDetails) (ws : v7action.Warnings) :
    (ServiceCommand.displayUpgrades d).filter (· ∈ reportParts X cmd d ws)
      = [DisplayText "Upgrading:" []] := by
  unfold ServiceCommand.displayUpgrades reportParts propertiesTable
  split <;> split <;>
    simp [List.filter_cons, introLine, lastOperationHeading, userProvidedTable,
      managedTable]

/-- C6: when the fetched details have the type `UserProvided`, no call in the output of
the detail path belongs to the Sharing section (its header `Sharing:`, its messages,
its usage table, its disablement notices) nor to the Upgrade section (its header
`Upgrading:` and its messages), whatever `SharedStatus` and `UpgradeStatus` hold. -/
theorem C6_user_provided_no_sharing_no_upgrade (X : Externals) (cmd : ServiceCommand)
    (d : v7action.ServiceInstanceDetails) (ws : v7action.Warnings)
    (hu : cmd.Config.CurrentUser.2 = none) (hr : detailsAnswer cmd = (d, ws, none))
    (ht : d.Type_ = X.UserProvidedServiceInstance) :
    ∀ call ∈ output (cmd.fetchAndDisplayDetails X).1,
      call.isSharingCall = false ∧ call.isUpgradeCall = false := by
  intro call hmem
  rw [(output_fetchAndDisplayDetails_ok X cmd d ws hu hr).2] at hmem
  simp only [detailSections, ht, if_true, List.mem_append, List.mem_cons, List.mem_singleton,
    List.not_mem_nil, or_false] at hmem
  rcases hmem with (rfl | rfl | rfl) | h
  · simp [UICall.isSharingCall, UICall.isUpgradeCall, introLine]
  · simp [UICall.isSharingCall, UICall.isUpgradeCall]
  · simp [UICall.isSharingCall, UICall.isUpgradeCall]
  · rcases h with (h | h) | h
    · exact displayPropertiesUserProvided_plain X cmd d call h
    · exact displayLastOperation_plain cmd d call h
    · exact displayBoundApps_plain X d call h

/-- C6 (witness): a user-provided instance whose bundle says it is shared to other
spaces and has an upgrade available; neither section header is in the output. -/
theorem C6_user_provided_no_sharing_no_upgrade_witness :
    (sampleCommand false false sampleUserProvided none none).Config.CurrentUser.2 = none
      ∧ detailsAnswer (sampleCommand false false sampleUserProvided none none)
          = (sampleUserProvided, ["W1"], none)
      ∧ sampleUserProvided.Type_ = sampleExternals.UserProvidedServiceInstance
      ∧ sampleUserProvided.SharedStatus.IsSharedToOtherSpaces = true
      ∧ sampleUserProvided.UpgradeStatus.State = .ServiceInstanceUpgradeAvailable
      ∧ ∀ call ∈ output ((sampleCommand false false sampleUserProvided none
            none).fetchAndDisplayDetails sampleExternals).1,
          call.isSharingCall = false ∧ call.isUpgradeCall = false :=
  ⟨rfl, rfl, rfl, rfl, rfl,
    C6_user_provided_no_sharing_no_upgrade sampleExternals
      (sampleCommand false false sampleUserProvided none none) sampleUserProvided ["W1"]
      rfl rfl rfl⟩

/-- C7: on a successful detail path the output is, in this fixed order: the intro
(intro line, blank line), the display of the warnings, the core properties table of
the provisioning type with its blank line, the last-operation section and the
bound-applications section, followed for a type other than `UserProvided` (a Managed
instance) by the sharing section and then the upgrade section, which ends the output;
for `UserProvided` the output ends after the bound-applications section.  The calls
that mark these parts (intro line, warnings, properties table, and the four section
headings) occur once each and in this order. -/
theorem C7_detail_sections_in_order (X : Externals) (cmd : ServiceCommand)
    (d : v7action.ServiceInstanceDetails) (ws : v7action.Warnings)
    (hu : cmd.Config.CurrentUser.2 = none) (hr : detailsAnswer cmd = (d, ws, none)) :
    (cmd.fetchAndDisplayDetails X).2 = none
      ∧ (d.Type_ = X.UserProvidedServiceInstance →
          output (cmd.fetchAndDisplayDetails X).1
              = [introLine cmd, DisplayNewline, DisplayWarnings ws,
                  DisplayKeyValueTable ""
                    [[cmd.UI.TranslateText "name:", d.Name],
                     [cmd.UI.TranslateText "guid:", d.GUID],
                     [cmd.UI.TranslateText "type:", d.Type_],
                     [cmd.UI.TranslateText "tags:", X.TagsString d.Tags],
                     [cmd.UI.TranslateText "route service url:", d.RouteServiceURL.String],
                     [cmd.UI.TranslateText "syslog drain url:", d.SyslogDrainURL.String]]
                    3,
                  DisplayNewline]
                ++ cmd.displayLastOperation d
                ++ ServiceCommand.displayBoundApps X d
            ∧ (output (cmd.fetchAndDisplayDetails X).1).filter (· ∈ reportParts X cmd d ws)
              = [introLine cmd, DisplayWarnings ws,
                  DisplayKeyValueTable ""
                    [[cmd.UI.TranslateText "name:", d.Name],
                     [cmd.UI.TranslateText "guid:", d.GUID],
                     [cmd.UI.TranslateText "type:", d.Type_],
                     [cmd.UI.TranslateText "tags:", X.TagsString d.Tags],
                     [cmd.UI.TranslateText "route service url:", d.RouteServiceURL.String],
                     [cmd.UI.TranslateText "syslog drain url:", d.SyslogDrainURL.String]]
                    3,
                  lastOperationHeading d, DisplayText "Bound apps:" []])
      ∧ (d.Type_ ≠ X.UserProvidedServiceInstance →
          output (cmd.fetchAndDisplayDetails X).1
              = [introLine cmd, DisplayNewline, DisplayWarnings ws,
                  DisplayKeyValueTable ""
                    [[cmd.UI.TranslateText "name:", d.Name],
                     [cmd.UI.TranslateText "guid:", d.GUID],
                     [cmd.UI.TranslateText "type:", d.Type_],
                     [cmd.UI.TranslateText "broker:", d.ServiceBrokerName],
                     [cmd.UI.TranslateText "offering:", d.ServiceOffering.Name],
                     [cmd.UI.TranslateText "plan:", d.ServicePlan.Name],
                     [cmd.UI.TranslateText "tags:", X.TagsString d.Tags],
                     [cmd.UI.TranslateText "offering tags:",
                       X.TagsString d.ServiceOffering.Tags],
                     [cmd.UI.TranslateText "description:", d.ServiceOffering.Description],
                     [cmd.UI.TranslateText "documentation:",
                       d.ServiceOffering.DocumentationURL],
                     [cmd.UI.TranslateText "dashboard url:", d.DashboardURL.String]]
                    3,
                  DisplayNewline]
                ++ cmd.displayLastOperation d
                ++ ServiceCommand.displayBoundApps X d
                ++ ServiceCommand.displaySharingInfo X d
                ++ ServiceCommand.displayUpgrades d
            ∧ (output (cmd.fetchAndDisplayDetails X).1).filter (· ∈ reportParts X cmd d ws)
              = [introLine cmd, DisplayWarnings ws,
                  DisplayKeyValueTable ""
                    [[cmd.UI.TranslateText "name:", d.Name],
                     [cmd.UI.TranslateText "guid:", d.GUID],
                     [cmd.UI.TranslateText "type:", d.Type_],
                     [cmd.UI.TranslateText "broker:", d.ServiceBrokerName],
                     [cmd.UI.TranslateText "offering:", d.ServiceOffering.Name],
                     [cmd.UI.TranslateText "plan:", d.ServicePlan.Name],
                     [cmd.UI.TranslateText "tags:", X.TagsString d.Tags],
                     [cmd.UI.TranslateText "offering tags:",
                       X.TagsString d.ServiceOffering.Tags],
                     [cmd.UI.TranslateText "description:", d.ServiceOffering.Description],
                     [cmd.UI.TranslateText "documentation:",
                       d.ServiceOffering.DocumentationURL],
                     [cmd.UI.TranslateText "dashboard url:", d.DashboardURL.String]]
                    3,
                  lastOperationHeading d, DisplayText "Bound apps:" [],
                  DisplayText "Sharing:" [], DisplayText "Upgrading:" []]) := by
  have hout := output_fetchAndDisplayDetails_ok X cmd d ws hu hr
  refine ⟨by rw [hout.1], fun ht => ?_, fun ht => ?_⟩
  · have hseq : output (cmd.fetchAndDisplayDetails X).1
        = [introLine cmd, DisplayNewline, DisplayWarnings ws]
          ++ cmd.displayPropertiesUserProvided X d
          ++ cmd.displayLastOperation d
          ++ ServiceCommand.displayBoundApps X d := by
      rw [hout.2]
      simp [detailSections, ht]
    constructor
    · rw [hseq]
      simp [ServiceCommand.displayPropertiesUserProvided]
    · rw [hseq]
      simp only [List.filter_append, filter_parts_intro,
        filter_parts_propertiesUserProvided X cmd d ws ht, filter_parts_lastOperation,
        filter_parts_boundApps]
      rfl
  · have hseq : output (cmd.fetchAndDisplayDetails X).1
        = [introLine cmd, DisplayNewline, DisplayWarnings ws]
          ++ cmd.displayPropertiesManaged X d
          ++ cmd.displayLastOperation d
          ++ ServiceCommand.displayBoundApps X d
          ++ ServiceCommand.displaySharingInfo X d
          ++ ServiceCommand.displayUpgrades d := by
      rw [hout.2]
      simp [detailSections, ht]
    constructor
    · rw [hseq]
      simp [ServiceCommand.displayPropertiesManaged]
    · rw [hseq]
      simp only [List.filter_append, filter_parts_intro,
        filter_parts_propertiesManaged X cmd d ws ht, filter_parts_lastOperation,
        filter_parts_boundApps, filter_parts_sharingInfo, filter_parts_upgrades]
      rfl

/-- C7 (witness): the whole output at the sample managed instance and at the sample
user-provided instance, and the calls that mark its parts. -/
theorem C7_detail_sections_in_order_witness :
    (sampleCommand false false sampleDetails none none).Config.CurrentUser.2 = none
      ∧ detailsAnswer (sampleCommand false false sampleDetails none none)
          = (sampleDetails, ["W1"], none)
      ∧ sampleDetails.Type_ ≠ sampleExternals.UserProvidedServiceInstance
      ∧ output ((sampleCommand false false sampleDetails none none).fetchAndDisplayDetails
            sampleExternals).1
          = [DisplayTextWithFlavor
              "Showing info of service \x7b\x7b.ServiceInstanceName\x7d\x7d in org \x7b\x7b.OrgName\x7d\x7d / space \x7b\x7b.SpaceName\x7d\x7d as \x7b\x7b.Username\x7d\x7d..."
              [("ServiceInstanceName", "my-db"), ("OrgName", "acme"), ("SpaceName", "dev"),
                ("Username", "admin")],
            DisplayNewline,
            DisplayWarnings ["W1"],
            DisplayKeyValueTable ""
              [["name:", "my-db"], ["guid:", "guid-1"], ["type:", "managed"],
                ["broker:", "broker-1"], ["offering:", "postgres"], ["plan:", "small"],
                ["tags:", "sql"], ["offering tags:", "db"], ["description:", "a database"],
                ["documentation:", "https://doc.example.com"],
                ["dashboard url:", "https://dash.example.com"]]
              3,
            DisplayNewline,
            DisplayTextWithFlavor
              "Showing status of last operation from service instance \x7b\x7b.ServiceInstanceName\x7d\x7d..."
              [("ServiceInstanceName", "my-db")],
            DisplayNewline,
            DisplayKeyValueTable ""
              [["status:", "create succeeded"], ["message:", "done"], ["started:", "t0"],
                ["updated:", "t1"]]
              3,
            DisplayNewline,
            DisplayText "Bound apps:" [],
            DisplayText "There are no bound apps for this service instance." [],
            DisplayNewline,
            DisplayText "Sharing:" [],
            DisplayNewline,
            DisplayText "This service instance is not currently being shared." [],
            DisplayNewline,
            DisplayText "Upgrading:" [],
            DisplayText "There is no upgrade available for this service." [],
            DisplayNewline]
      ∧ (output ((sampleCommand false false sampleDetails none none).fetchAndDisplayDetails
              sampleExternals).1
            = [introLine (sampleCommand false false sampleDetails none none), DisplayNewline,
                DisplayWarnings ["W1"],
                DisplayKeyValueTable ""
                  [["name:", "my-db"], ["guid:", "guid-1"], ["type:", "managed"],
                    ["broker:", "broker-1"], ["offering:", "postgres"], ["plan:", "small"],
                    ["tags:", "sql"], ["offering tags:", "db"],
                    ["description:", "a database"],
                    ["documentation:", "https://doc.example.com"],
                    ["dashboard url:", "https://dash.example.com"]]
                  3,
                DisplayNewline]
              ++ (sampleCommand false false sampleDetails none none).displayLastOperation
                  sampleDetails
              ++ ServiceCommand.displayBoundApps sampleExternals sampleDetails
              ++ ServiceCommand.displaySharingInfo sampleExternals sampleDetails
              ++ ServiceCommand.displayUpgrades sampleDetails
          ∧ (output ((sampleCommand false false sampleDetails none none).fetchAndDisplayDetails
              sampleExternals).1).filter
                (· ∈ reportParts sampleExternals
                  (sampleCommand false false sampleDetails none none) sampleDetails ["W1"])
            = [introLine (sampleCommand false false sampleDetails none none),
                DisplayWarnings ["W1"],
                DisplayKeyValueTable ""
                  [["name:", "my-db"], ["guid:", "guid-1"], ["type:", "managed"],
                    ["broker:", "broker-1"], ["offering:", "postgres"], ["plan:", "small"],
                    ["tags:", "sql"], ["offering tags:", "db"],
                    ["description:", "a database"],
                    ["documentation:", "https://doc.example.com"],
                    ["dashboard url:", "https://dash.example.com"]]
                  3,
                lastOperationHeading sampleDetails,
                DisplayText "Bound apps:" [], DisplayText "Sharing:" [],
                DisplayText "Upgrading:" []])
      ∧ (sampleCommand false false sampleUserProvided none none).Config.CurrentUser.2 = none
      ∧ detailsAnswer (sampleCommand false false sampleUserProvided none none)
          = (sampleUserProvided, ["W1"], none)
      ∧ sampleUserProvided.Type_ = sampleExternals.UserProvidedServiceInstance
      ∧ (output ((sampleCommand false false sampleUserProvided none
              none).fetchAndDisplayDetails sampleExternals).1
            = [introLine (sampleCommand false false sampleUserProvided none none),
                DisplayNewline, DisplayWarnings ["W1"],
                DisplayKeyValueTable ""
                  [["name:", "my-ups"], ["guid:", "guid-2"], ["type:", "user-provided"],
                    ["tags:", ""], ["route service url:", "https://route.example.com"],
                    ["syslog drain url:", ""]]
                  3,
                DisplayNewline]
              ++ (sampleCommand false false sampleUserProvided none none).displayLastOperation
                  sampleUserProvided
              ++ ServiceCommand.displayBoundApps sampleExternals sampleUserProvided
          ∧ (output ((sampleCommand false false sampleUserProvided none
              none).fetchAndDisplayDetails sampleExternals).1).filter
                (· ∈ reportParts sampleExternals
                  (sampleCommand false false sampleUserProvided none none)
                  sampleUserProvided ["W1"])
            = [introLine (sampleCommand false false sampleUserProvided none none),
                DisplayWarnings ["W1"],
                DisplayKeyValueTable ""
                  [["name:", "my-ups"], ["guid:", "guid-2"], ["type:", "user-provided"],
                    ["tags:", ""], ["route service url:", "https://route.example.com"],
                    ["syslog drain url:", ""]]
                  3,
                lastOperationHeading sampleUserProvided,
                DisplayText "Bound apps:" []]) :=
  ⟨rfl, rfl, by decide, by decide,
    (C7_detail_sections_in_order sampleExternals
      (sampleCommand false false sampleDetails none none) sampleDetails ["W1"]
      rfl rfl).2.2 (by decide),
    rfl, rfl, rfl,
    (C7_detail_sections_in_order sampleExternals
      (sampleCommand false false sampleUserProvided none none) sampleUserProvided ["W1"]
      rfl rfl).2.1 rfl⟩

/-! ## The last-operation section -/

/-- C8: when `LastOperation` equals the zero value, the last-operation section is its
heading, the fixed text `There is no last operation available for this service
instance.` (no template variables) and a blank line; it holds no key-value table. -/
theorem C8_no_last_operation (cmd : ServiceCommand) (d : v7action.ServiceInstanceDetails)
    (h : d.LastOperation = resources.LastOperation.zero) :
    cmd.displayLastOperation d
        = [lastOperationHeading d,
            DisplayText "There is no last operation available for this service instance." [],
            DisplayNewline]
      ∧ ∀ pfx table padding,
          DisplayKeyValueTable pfx table padding ∉ cmd.displayLastOperation d := by
  rw [displayLastOperation_zero cmd d h]
  simp [noLastOperationText, lastOperationHeading]

/-- C8 (witness): the sample user-provided instance has the zero last operation. -/
theorem C8_no_last_operation_witness :
    sampleUserProvided.LastOperation = resources.LastOperation.zero
      ∧ ((sampleCommand false false sampleUserProvided none none).displayLastOperation
            sampleUserProvided
          = [lastOperationHeading sampleUserProvided,
              DisplayText "There is no last operation available for this service instance." [],
              DisplayNewline]
        ∧ ∀ pfx table padding,
            DisplayKeyValueTable pfx table padding
              ∉ (sampleCommand false false sampleUserProvided none none).displayLastOperation
                  sampleUserProvided) :=
  ⟨rfl, C8_no_last_operation (sampleCommand false false sampleUserProvided none none)
    sampleUserProvided rfl⟩

/-- C9: when `LastOperation` is not the zero value, the last-operation section is its
heading, a blank line, one key-value table of four rows keyed (through `TranslateText`)
`status:`, `message:`, `started:`, `updated:` in this order, whose values are `Type` and
`State` joined by one space, then `Description`, `CreatedAt` and `UpdatedAt` verbatim,
and a blank line.  Whether `LastOperation` is zero or not, the last call of the section
is a blank line. -/
theorem C9_last_operation_table (cmd : ServiceCommand) (d : v7action.ServiceInstanceDetails) :
    (d.LastOperation ≠ resources.LastOperation.zero →
      cmd.displayLastOperation d
        = [lastOperationHeading d, DisplayNewline,
            DisplayKeyValueTable ""
              [[cmd.UI.TranslateText "status:",
                  d.LastOperation.Type_ ++ " " ++ d.LastOperation.State],
               [cmd.UI.TranslateText "message:", d.LastOperation.Description],
               [cmd.UI.TranslateText "started:", d.LastOperation.CreatedAt],
               [cmd.UI.TranslateText "updated:", d.LastOperation.UpdatedAt]]
              3,
            DisplayNewline])
      ∧ (cmd.displayLastOperation d).getLast? = some DisplayNewline := by
  constructor
  · intro h
    rw [displayLastOperation_nonzero cmd d h]
    rfl
  · by_cases h : d.LastOperation = resources.LastOperation.zero
    · rw [displayLastOperation_zero cmd d h]
      rfl
    · rw [displayLastOperation_nonzero cmd d h]
      rfl

/-- C9 (witness): the sample managed instance, whose last operation is
`create succeeded`. -/
theorem C9_last_operation_table_witness :
    sampleDetails.LastOperation ≠ resources.LastOperation.zero
      ∧ (sampleCommand false false sampleDetails none none).displayLastOperation sampleDetails
        = [lastOperationHeading sampleDetails, DisplayNewline,
            DisplayKeyValueTable ""
              [["status:", "create succeeded"], ["message:", "done"], ["started:", "t0"],
                ["updated:", "t1"]]
              3,
            DisplayNewline]
      ∧ ((sampleCommand false false sampleDetails none none).displayLastOperation
            sampleDetails).getLast? = some DisplayNewline :=
  ⟨by decide,
    (C9_last_operation_table (sampleCommand false false sampleDetails none none)
      sampleDetails).1 (by decide),
    (C9_last_operation_table (sampleCommand false false sampleDetails none none)
      sampleDetails).2⟩

/-- C10 (counterexample): a last operation whose five fields are all the empty string
is rendered with the fixed text and without a key-value table: it is not told apart
from the zero value. -/
theorem C10_empty_operation_rendered_as_none :
    sampleUserProvided.LastOperation = ⟨"", "", "", "", ""⟩
      ∧ (sampleCommand false false sampleUserProvided none none).displayLastOperation
          sampleUserProvided
        = [DisplayTextWithFlavor
            "Showing status of last operation from service instance \x7b\x7b.ServiceInstanceName\x7d\x7d..."
            [("ServiceInstanceName", "my-ups")],
          DisplayText "There is no last operation available for this service instance." [],
          DisplayNewline] := by
  decide

/-- C10 (amended): the last-operation section tells the sentinel by comparing
`LastOperation` with the zero value, so it renders the fixed text exactly when the five
fields `Type`, `State`, `Description`, `CreatedAt` and `UpdatedAt` are all the empty
string, and the key-value table exactly when one of them is not empty. -/
theorem C10_sentinel_iff_all_fields_empty (cmd : ServiceCommand)
    (d : v7action.ServiceInstanceDetails) :
    (DisplayText "There is no last operation available for this service instance." []
          ∈ cmd.displayLastOperation d
        ↔ (d.LastOperation.Type_ = "" ∧ d.LastOperation.State = ""
            ∧ d.LastOperation.Description = "" ∧ d.LastOperation.CreatedAt = ""
            ∧ d.LastOperation.UpdatedAt = ""))
      ∧ (lastOperationTable cmd d ∈ cmd.displayLastOperation d
        ↔ ¬ (d.LastOperation.Type_ = "" ∧ d.LastOperation.State = ""
            ∧ d.LastOperation.Description = "" ∧ d.LastOperation.CreatedAt = ""
            ∧ d.LastOperation.UpdatedAt = "")) := by
  have hz : d.LastOperation = resources.LastOperation.zero
      ↔ (d.LastOperation.Type_ = "" ∧ d.LastOperation.State = ""
          ∧ d.LastOperation.Description = "" ∧ d.LastOperation.CreatedAt = ""
          ∧ d.LastOperation.UpdatedAt = "") := by
    cases d.LastOperation
    simp [resources.LastOperation.zero]
  by_cases h : d.LastOperation = resources.LastOperation.zero
  · rw [displayLastOperation_zero cmd d h]
    have hall := hz.mp h
    simp [hall, noLastOperationText, lastOperationHeading, lastOperationTable]
  · rw [displayLastOperation_nonzero cmd d h]
    have hnot := mt hz.mpr h
    simp [hnot, lastOperationHeading, lastOperationTable]

/-! ## The bound-applications section -/

/-- C11: when there is no bound application the section is its heading, the one fixed
sentence `There are no bound apps for this service instance.` and a blank line, with
no table; when there are N > 0 the section is its heading, one table and a blank
line, the table having N + 1 rows: the header `name, binding name, status, message`,
then for the i-th application the row of its `AppName`, its `Name`, the `Type` and
`State` of its last operation joined by one space, and the `Description` of its last
operation, in input order. -/
theorem C11_bound_apps_section (X : Externals) (d : v7action.ServiceInstanceDetails) :
    (d.BoundApps.length = 0 →
      ServiceCommand.displayBoundApps X d
          = [DisplayText "Bound apps:" [],
              DisplayText "There are no bound apps for this service instance." [],
              DisplayNewline]
        ∧ ∀ pfx table padding,
            DisplayTableWithHeader pfx table padding ∉ ServiceCommand.displayBoundApps X d)
    ∧ (0 < d.BoundApps.length →
      ∃ table : List (List String),
        ServiceCommand.displayBoundApps X d
            = [DisplayText "Bound apps:" [],
                DisplayTableWithHeader "   " table X.DefaultTableSpacePadding,
                DisplayNewline]
          ∧ table.length = d.BoundApps.length + 1
          ∧ table[0]? = some ["name", "binding name", "status", "message"]
          ∧ ∀ i, i < d.BoundApps.length →
              table[i + 1]? = (d.BoundApps[i]?).map fun app =>
                [app.AppName, app.Name,
                  app.LastOperation.Type_ ++ " " ++ app.LastOperation.State,
                  app.LastOperation.Description]) := by
  constructor
  · intro h
    have hnil : d.BoundApps = [] := List.length_eq_zero.mp h
    rw [displayBoundApps_empty X d hnil]
    simp
  · intro h
    have hne : d.BoundApps ≠ [] := List.ne_nil_of_length_pos h
    refine ⟨_, displayBoundApps_nonempty X d hne, ?_, ?_, ?_⟩
    · simp
    · simp
    · intro i _
      simp

/-- C11 (witness): the sample managed instance has no bound application, the sample
user-provided instance has one. -/
theorem C11_bound_apps_section_witness :
    sampleDetails.BoundApps.length = 0
      ∧ (ServiceCommand.displayBoundApps sampleExternals sampleDetails
          = [DisplayText "Bound apps:" [],
              DisplayText "There are no bound apps for this service instance." [],
              DisplayNewline]
        ∧ ∀ pfx table padding,
            DisplayTableWithHeader pfx table padding
              ∉ ServiceCommand.displayBoundApps sampleExternals sampleDetails)
      ∧ 0 < sampleUserProvided.BoundApps.length
      ∧ ∃ table : List (List String),
          ServiceCommand.displayBoundApps sampleExternals sampleUserProvided
              = [DisplayText "Bound apps:" [],
                  DisplayTableWithHeader "   " table sampleExternals.DefaultTableSpacePadding,
                  DisplayNewline]
            ∧ table.length = sampleUserProvided.BoundApps.length + 1
            ∧ table[0]? = some ["name", "binding name", "status", "message"]
            ∧ ∀ i, i < sampleUserProvided.BoundApps.length →
                table[i + 1]? = (sampleUserProvided.BoundApps[i]?).map fun app =>
                  [app.AppName, app.Name,
                    app.LastOperation.Type_ ++ " " ++ app.LastOperation.State,
                    app.LastOperation.Description] :=
  ⟨rfl, (C11_bound_apps_section sampleExternals sampleDetails).1 rfl, by decide,
    (C11_bound_apps_section sampleExternals sampleUserProvided).2 (by decide)⟩

/-! ## The sharing section -/

theorem displaySharingInfo_sharedFrom (X : Externals) (d : v7action.ServiceInstanceDetails)
    (h : d.SharedStatus.IsSharedFromOriginalSpace = true) :
    ServiceCommand.displaySharingInfo X d
      = [DisplayText "Sharing:" [], DisplayNewline, sharedFromMessage d, DisplayNewline] := by
  simp [ServiceCommand.displaySharingInfo, h, sharedFromMessage]

theorem displaySharingInfo_sharedTo (X : Externals) (d : v7action.ServiceInstanceDetails)
    (h : d.SharedStatus.IsSharedFromOriginalSpace = false)
    (hto : d.SharedStatus.IsSharedToOtherSpaces = true) :
    ServiceCommand.displaySharingInfo X d
      = [DisplayText "Sharing:" [], DisplayNewline, DisplayText "Shared with spaces:" [],
          DisplayTableWithHeader "   "
            (["org", "space", "bindings"] ::
              d.SharedStatus.UsageSummary.map fun line =>
                [line.OrganizationName, line.SpaceName, Itoa line.BoundAppCount])
            X.DefaultTableSpacePadding,
          DisplayNewline]
        ++ sharingNotices d := by
  unfold ServiceCommand.displaySharingInfo sharingNotices
  rw [displaySharedTo_eq]
  simp only [h, hto, Bool.false_eq_true, if_false, if_true]
  split_ifs <;> simp [featureFlagNotice, offeringNotice]

theorem displaySharingInfo_notShared (X : Externals) (d : v7action.ServiceInstanceDetails)
    (h : d.SharedStatus.IsSharedFromOriginalSpace = false)
    (hto : d.SharedStatus.IsSharedToOtherSpaces = false) :
    ServiceCommand.displaySharingInfo X d
      = [DisplayText "Sharing:" [], DisplayNewline, notSharedText, DisplayNewline]
        ++ sharingNotices d := by
  unfold ServiceCommand.displaySharingInfo sharingNotices
  simp only [h, hto, Bool.false_eq_true, if_false]
  split_ifs <;> simp [featureFlagNotice, offeringNotice, notSharedText]

theorem mem_sharingNotices (d : v7action.ServiceInstanceDetails) (call : UICall) :
    call ∈ sharingNotices d
      ↔ (d.SharedStatus.FeatureFlagIsDisabled = true
            ∧ (call = featureFlagNotice ∨ call = DisplayNewline))
          ∨ (d.SharedStatus.OfferingDisablesSharing = true
            ∧ (call = offeringNotice ∨ call = DisplayNewline)) := by
  unfold sharingNotices
  split_ifs with h1 h2 h2 <;> simp [h1, h2, or_assoc]

/-- C12 (counterexample): a managed instance shared from its original space, on a
platform whose feature flag is disabled and with an offering that disables sharing:
the sharing section ends after the shared-from message and holds neither notice. -/
theorem C12_shared_from_has_no_notice :
    sampleSharedFrom.Type_ ≠ sampleExternals.UserProvidedServiceInstance
      ∧ sampleSharedFrom.SharedStatus.IsSharedFromOriginalSpace = true
      ∧ sampleSharedFrom.SharedStatus.FeatureFlagIsDisabled = true
      ∧ sampleSharedFrom.SharedStatus.OfferingDisablesSharing = true
      ∧ featureFlagNotice ∉ ServiceCommand.displaySharingInfo sampleExternals sampleSharedFrom
      ∧ offeringNotice ∉ ServiceCommand.displaySharingInfo sampleExternals sampleSharedFrom
      ∧ ServiceCommand.displaySharingInfo sampleExternals sampleSharedFrom
        = [DisplayText "Sharing:" [], DisplayNewline,
            DisplayText
              "This service instance is shared from space \x7b\x7b.Space\x7d\x7d of org \x7b\x7b.Org\x7d\x7d."
              [("Space", "dev"), ("Org", "acme")],
            DisplayNewline] := by
  decide

/-- C12 (amended): for every Managed detail whose `IsSharedFromOriginalSpace` is false,
whichever of the shared-to and not-shared branches matched, the sharing section holds
the platform-level notice if and only if `FeatureFlagIsDisabled` is true, and the
broker-level notice if and only if `OfferingDisablesSharing` is true; when
`IsSharedFromOriginalSpace` is true the section returns after the shared-from message
and holds neither notice. -/
theorem C12_disablement_notices (X : Externals) (d : v7action.ServiceInstanceDetails) :
    (d.SharedStatus.IsSharedFromOriginalSpace = false →
      (featureFlagNotice ∈ ServiceCommand.displaySharingInfo X d
          ↔ d.SharedStatus.FeatureFlagIsDisabled = true)
        ∧ (offeringNotice ∈ ServiceCommand.displaySharingInfo X d
          ↔ d.SharedStatus.OfferingDisablesSharing = true))
    ∧ (d.SharedStatus.IsSharedFromOriginalSpace = true →
      featureFlagNotice ∉ ServiceCommand.displaySharingInfo X d
        ∧ offeringNotice ∉ ServiceCommand.displaySharingInfo X d) := by
  constructor
  · intro h
    cases hto : d.SharedStatus.IsSharedToOtherSpaces with
    | true =>
      rw [displaySharingInfo_sharedTo X d h hto]
      simp [mem_sharingNotices, featureFlagNotice, offeringNotice]
    | false =>
      rw [displaySharingInfo_notShared X d h hto]
      simp [mem_sharingNotices, featureFlagNotice, offeringNotice, notSharedText]
  · intro h
    rw [displaySharingInfo_sharedFrom X d h]
    simp [featureFlagNotice, offeringNotice, sharedFromMessage]

/-- C12 (witness): the sample instance shared to other spaces, whose feature flag is
disabled and whose offering allows sharing, and the sample instance shared from its
original space. -/
theorem C12_disablement_notices_witness :
    sampleSharedTo.SharedStatus.IsSharedFromOriginalSpace = false
      ∧ ((featureFlagNotice ∈ ServiceCommand.displaySharingInfo sampleExternals sampleSharedTo
            ↔ sampleSharedTo.SharedStatus.FeatureFlagIsDisabled = true)
          ∧ (offeringNotice ∈ ServiceCommand.displaySharingInfo sampleExternals sampleSharedTo
            ↔ sampleSharedTo.SharedStatus.OfferingDisablesSharing = true))
      ∧ sampleSharedFrom.SharedStatus.IsSharedFromOriginalSpace = true
      ∧ (featureFlagNotice ∉ ServiceCommand.displaySharingInfo sampleExternals sampleSharedFrom
          ∧ offeringNotice
            ∉ ServiceCommand.displaySharingInfo sampleExternals sampleSharedFrom) :=
  ⟨rfl, (C12_disablement_notices sampleExternals sampleSharedTo).1 rfl, rfl,
    (C12_disablement_notices sampleExternals sampleSharedFrom).2 rfl⟩

/-- C13: for every Managed detail whose `IsSharedFromOriginalSpace` is true, the sharing
section is its header, a blank line, the shared-from message carrying the `SpaceName`
and `OrganizationName` of the detail, and a blank line; it holds neither the header
`Shared with spaces:` nor any table, whatever `IsSharedToOtherSpaces` and
`UsageSummary` are. -/
theorem C13_shared_from_section (X : Externals) (d : v7action.ServiceInstanceDetails)
    (h : d.SharedStatus.IsSharedFromOriginalSpace = true) :
    ServiceCommand.displaySharingInfo X d
        = [DisplayText "Sharing:" [], DisplayNewline,
            DisplayText
              "This service instance is shared from space \x7b\x7b.Space\x7d\x7d of org \x7b\x7b.Org\x7d\x7d."
              [("Space", d.SpaceName), ("Org", d.OrganizationName)],
            DisplayNewline]
      ∧ (∀ vars, DisplayText "Shared with spaces:" vars ∉ ServiceCommand.displaySharingInfo X d)
      ∧ ∀ pfx table padding,
          DisplayTableWithHeader pfx table padding ∉ ServiceCommand.displaySharingInfo X d := by
  rw [displaySharingInfo_sharedFrom X d h]
  simp [sharedFromMessage]

/-- C13 (witness): the sample instance shared from its original space, whose bundle
also says it is shared to other spaces and carries a usage summary. -/
theorem C13_shared_from_section_witness :
    sampleSharedFrom.SharedStatus.IsSharedFromOriginalSpace = true
      ∧ sampleSharedFrom.SharedStatus.IsSharedToOtherSpaces = true
      ∧ sampleSharedFrom.SharedStatus.UsageSummary ≠ []
      ∧ (ServiceCommand.displaySharingInfo sampleExternals sampleSharedFrom
          = [DisplayText "Sharing:" [], DisplayNewline,
              DisplayText
                "This service instance is shared from space \x7b\x7b.Space\x7d\x7d of org \x7b\x7b.Org\x7d\x7d."
                [("Space", sampleSharedFrom.SpaceName), ("Org", sampleSharedFrom.OrganizationName)],
              DisplayNewline]
        ∧ (∀ vars, DisplayText "Shared with spaces:" vars
            ∉ ServiceCommand.displaySharingInfo sampleExternals sampleSharedFrom)
        ∧ ∀ pfx table padding,
            DisplayTableWithHeader pfx table padding
              ∉ ServiceCommand.displaySharingInfo sampleExternals sampleSharedFrom) :=
  ⟨rfl, rfl, by decide, C13_shared_from_section sampleExternals sampleSharedFrom rfl⟩

theorem Itoa_ofNat (n : Nat) : Itoa (Int.ofNat n) = Nat.repr n := rfl

theorem Itoa_negSucc (n : Nat) : Itoa (Int.negSucc n) = "-" ++ Nat.repr (n + 1) := rfl

theorem toDigitsCore_eq_digits (b : Nat) (hb : 1 < b) (n : Nat) :
    ∀ (fuel : Nat) (ds : List Char), n < fuel → 0 < n →
      Nat.toDigitsCore b fuel n ds = (Nat.digits b n).reverse.map Nat.digitChar ++ ds := by
  induction n using Nat.strong_induction_on with
  | _ n ih =>
    intro fuel ds hfuel hpos
    cases fuel with
    | zero => omega
    | succ f =>
      rw [Nat.digits_def' hb hpos]
      by_cases hq : n / b = 0
      · simp [Nat.toDigitsCore, hq]
      · have hlt : n / b < n := Nat.div_lt_self hpos hb
        have hqpos : 0 < n / b := Nat.pos_of_ne_zero hq
        simp only [Nat.toDigitsCore, hq, if_false]
        rw [ih (n / b) hlt f _ (by omega) hqpos]
        simp

theorem repr_eq_digits (n : Nat) :
    Nat.repr n
      = String.mk (if n = 0 then ['0'] else (Nat.digits 10 n).reverse.map Nat.digitChar) := by
  by_cases h : n = 0
  · subst h
    rfl
  · have hpos : 0 < n := Nat.pos_of_ne_zero h
    simp only [Nat.repr, Nat.toDigits, List.asString, h, if_false]
    rw [toDigitsCore_eq_digits 10 (by decide) n (n + 1) [] (by omega) hpos]
    simp

theorem decimal_samples :
    decimal 0 = "0" ∧ decimal 2 = "2" ∧ decimal 120 = "120" ∧ decimal (-12) = "-12" := by
  refine ⟨by decide, ?_, ?_, ?_⟩
  · norm_num [decimal]
    rfl
  · norm_num [decimal]
    rfl
  · norm_num [decimal]
    rfl

/-- C14: for every Managed detail whose `IsSharedFromOriginalSpace` is false: when
`IsSharedToOtherSpaces` is true the sharing section is its header, a blank line, the
header `Shared with spaces:`, one table and a blank line, then the disablement
notices; the table has `len(UsageSummary) + 1` rows, the header `org, space, bindings`
and for the i-th entry the row of its `OrganizationName`, its `SpaceName` and the
decimal representation of its `BoundAppCount` (a minus sign if negative, then its
base-ten digits), in input order; the not-shared text is absent.  Otherwise the section holds the text `This service instance is not currently
being shared.`, no table and no header `Shared with spaces:`. -/
theorem C14_shared_to_section (X : Externals) (d : v7action.ServiceInstanceDetails)
    (h : d.SharedStatus.IsSharedFromOriginalSpace = false) :
    (d.SharedStatus.IsSharedToOtherSpaces = true →
      ∃ table : List (List String),
        ServiceCommand.displaySharingInfo X d
            = [DisplayText "Sharing:" [], DisplayNewline,
                DisplayText "Shared with spaces:" [],
                DisplayTableWithHeader "   " table X.DefaultTableSpacePadding,
                DisplayNewline]
              ++ sharingNotices d
          ∧ table.length = d.SharedStatus.UsageSummary.length + 1
          ∧ table[0]? = some ["org", "space", "bindings"]
          ∧ (∀ i, i < d.SharedStatus.UsageSummary.length →
              table[i + 1]? = (d.SharedStatus.UsageSummary[i]?).map fun line =>
                [line.OrganizationName, line.SpaceName, decimal line.BoundAppCount])
          ∧ DisplayText "This service instance is not currently being shared." []
              ∉ ServiceCommand.displaySharingInfo X d)
    ∧ (d.SharedStatus.IsSharedToOtherSpaces = false →
      ServiceCommand.displaySharingInfo X d
          = [DisplayText "Sharing:" [], DisplayNewline,
              DisplayText "This service instance is not currently being shared." [],
              DisplayNewline]
            ++ sharingNotices d
        ∧ (∀ pfx table padding,
            DisplayTableWithHeader pfx table padding ∉ ServiceCommand.displaySharingInfo X d)
        ∧ ∀ vars, DisplayText "Shared with spaces:" vars
            ∉ ServiceCommand.displaySharingInfo X d) := by
  constructor
  · intro hto
    refine ⟨_, displaySharingInfo_sharedTo X d h hto, ?_, ?_, ?_, ?_⟩
    · simp
    · simp
    · intro i _
      have hItoa : ∀ n : Int, Itoa n = decimal n := by
        intro n
        cases n with
        | ofNat m =>
          show Nat.repr m = decimal (Int.ofNat m)
          rw [repr_eq_digits]
          have hneg : ¬ ((m : Int) < 0) := by omega
          simp [decimal, hneg]
        | negSucc m =>
          show "-" ++ Nat.repr (m + 1) = decimal (Int.negSucc m)
          rw [repr_eq_digits]
          have hneg : Int.negSucc m < 0 := Int.negSucc_lt_zero m
          simp [decimal, hneg]
      simp [hItoa]
    · rw [displaySharingInfo_sharedTo X d h hto]
      simp [mem_sharingNotices, featureFlagNotice, offeringNotice]
  · intro hto
    rw [displaySharingInfo_notShared X d h hto]
    refine ⟨rfl, ?_, ?_⟩
    · intro pfx table padding
      simp [mem_sharingNotices, featureFlagNotice, offeringNotice, notSharedText]
    · intro vars
      simp [mem_sharingNotices, featureFlagNotice, offeringNotice, notSharedText]

/-- C14 (witness): the sample instance shared to two spaces, with 2 and 0 bound
applications, and the sample managed instance, which is not shared. -/
theorem C14_shared_to_section_witness :
    sampleSharedTo.SharedStatus.IsSharedFromOriginalSpace = false
      ∧ sampleSharedTo.SharedStatus.IsSharedToOtherSpaces = true
      ∧ ServiceCommand.displaySharingInfo sampleExternals sampleSharedTo
          = [DisplayText "Sharing:" [], DisplayNewline,
              DisplayText "Shared with spaces:" [],
              DisplayTableWithHeader "   "
                [["org", "space", "bindings"], ["acme", "prod", "2"],
                  ["beta", "staging", "0"]]
                3,
              DisplayNewline,
              DisplayText
                "The \"service_instance_sharing\" feature flag is disabled for this Cloud Foundry platform."
                [],
              DisplayNewline]
      ∧ (∃ table : List (List String),
          ServiceCommand.displaySharingInfo sampleExternals sampleSharedTo
              = [DisplayText "Sharing:" [], DisplayNewline,
                  DisplayText "Shared with spaces:" [],
                  DisplayTableWithHeader "   " table sampleExternals.DefaultTableSpacePadding,
                  DisplayNewline]
                ++ sharingNotices sampleSharedTo
            ∧ table.length = sampleSharedTo.SharedStatus.UsageSummary.length + 1
            ∧ table[0]? = some ["org", "space", "bindings"]
            ∧ (∀ i, i < sampleSharedTo.SharedStatus.UsageSummary.length →
                table[i + 1]? = (sampleSharedTo.SharedStatus.UsageSummary[i]?).map fun line =>
                  [line.OrganizationName, line.SpaceName, decimal line.BoundAppCount])
            ∧ DisplayText "This service instance is not currently being shared." []
                ∉ ServiceCommand.displaySharingInfo sampleExternals sampleSharedTo)
      ∧ sampleDetails.SharedStatus.IsSharedFromOriginalSpace = false
      ∧ sampleDetails.SharedStatus.IsSharedToOtherSpaces = false
      ∧ (ServiceCommand.displaySharingInfo sampleExternals sampleDetails
            = [DisplayText "Sharing:" [], DisplayNewline,
                DisplayText "This service instance is not currently being shared." [],
                DisplayNewline]
              ++ sharingNotices sampleDetails
          ∧ (∀ pfx table padding,
              DisplayTableWithHeader pfx table padding
                ∉ ServiceCommand.displaySharingInfo sampleExternals sampleDetails)
          ∧ ∀ vars, DisplayText "Shared with spaces:" vars
              ∉ ServiceCommand.displaySharingInfo sampleExternals sampleDetails) :=
  ⟨rfl, rfl, by decide, (C14_shared_to_section sampleExternals sampleSharedTo rfl).1 rfl,
    rfl, rfl, (C14_shared_to_section sampleExternals sampleDetails rfl).2 rfl⟩

/-! ## The upgrade section -/

/-- C15: for every Managed detail the upgrade section is its header `Upgrading:`, one
of three bodies chosen by `UpgradeStatus.State`, and a blank line.  `Available` gives
the availability notice, a blank line, the text carrying `UpgradeStatus.Description`,
a blank line and the hint naming `cf upgrade-service` with the `Name` of the instance;
`NotAvailable` gives `There is no upgrade available for this service.`; `NotSupported`
gives `Upgrades are not supported by this broker.`.  The description and the hint
occur in the `Available` case only. -/
theorem C15_upgrade_section (d : v7action.ServiceInstanceDetails) :
    (d.UpgradeStatus.State = .ServiceInstanceUpgradeAvailable →
      ServiceCommand.displayUpgrades d
        = [DisplayText "Upgrading:" [],
            DisplayText "Showing available upgrade details for this service..." [],
            DisplayNewline,
            DisplayText "Upgrade description: \x7b\x7b.Description\x7d\x7d"
              [("Description", d.UpgradeStatus.Description)],
            DisplayNewline,
            DisplayText
              "TIP: You can upgrade using \x27cf upgrade-service \x7b\x7b.InstanceName\x7d\x7d\x27"
              [("InstanceName", d.Name)],
            DisplayNewline])
    ∧ (d.UpgradeStatus.State = .ServiceInstanceUpgradeNotAvailable →
      ServiceCommand.displayUpgrades d
        = [DisplayText "Upgrading:" [],
            DisplayText "There is no upgrade available for this service." [],
            DisplayNewline])
    ∧ (d.UpgradeStatus.State = .ServiceInstanceUpgradeNotSupported →
      ServiceCommand.displayUpgrades d
        = [DisplayText "Upgrading:" [],
            DisplayText "Upgrades are not supported by this broker." [],
            DisplayNewline])
    ∧ (d.UpgradeStatus.State ≠ .ServiceInstanceUpgradeAvailable →
      ∀ vars,
        DisplayText "Upgrade description: \x7b\x7b.Description\x7d\x7d" vars
            ∉ ServiceCommand.displayUpgrades d
          ∧ DisplayText
              "TIP: You can upgrade using \x27cf upgrade-service \x7b\x7b.InstanceName\x7d\x7d\x27"
              vars
            ∉ ServiceCommand.displayUpgrades d) := by
  refine ⟨fun h => ?_, fun h => ?_, fun h => ?_, fun h vars => ?_⟩
  · simp [ServiceCommand.displayUpgrades, h]
  · simp [ServiceCommand.displayUpgrades, h]
  · simp [ServiceCommand.displayUpgrades, h]
  · cases hs : d.UpgradeStatus.State with
    | ServiceInstanceUpgradeAvailable => exact absurd hs h
    | ServiceInstanceUpgradeNotAvailable => simp [ServiceCommand.displayUpgrades, hs]
    | ServiceInstanceUpgradeNotSupported => simp [ServiceCommand.displayUpgrades, hs]

/-- C15 (witness): the sample instance whose upgrade `Adds replica support` is
available, and the sample managed instance, which has no upgrade available. -/
theorem C15_upgrade_section_witness :
    sampleUpgradeAvailable.UpgradeStatus.State = .ServiceInstanceUpgradeAvailable
      ∧ ServiceCommand.displayUpgrades sampleUpgradeAvailable
        = [DisplayText "Upgrading:" [],
            DisplayText "Showing available upgrade details for this service..." [],
            DisplayNewline,
            DisplayText "Upgrade description: \x7b\x7b.Description\x7d\x7d"
              [("Description", "Adds replica support")],
            DisplayNewline,
            DisplayText
              "TIP: You can upgrade using \x27cf upgrade-service \x7b\x7b.InstanceName\x7d\x7d\x27"
              [("InstanceName", "my-db")],
            DisplayNewline]
      ∧ sampleDetails.UpgradeStatus.State = .ServiceInstanceUpgradeNotAvailable
      ∧ ServiceCommand.displayUpgrades sampleDetails
        = [DisplayText "Upgrading:" [],
            DisplayText "There is no upgrade available for this service." [],
            DisplayNewline] :=
  ⟨rfl, (C15_upgrade_section sampleUpgradeAvailable).1 rfl, rfl,
    (C15_upgrade_section sampleDetails).2.1 rfl⟩

/-! ## The params path -/

/-- C16: on the params path the command first issues `GetServiceInstanceParameters`
and displays the warnings it answers.  When the call succeeded it then emits one
`DisplayText` whose text is the parameters marshalled by `json.MarshalIndent` with the
empty string and two spaces, and returns no error; when the call failed it emits no
text and returns the error.  Nothing else is called or emitted (no intro, no other
section), and the parameters occur in the trace only as the marshalled text. -/
theorem C16_params_path (X : Externals) (cmd : ServiceCommand)
    (hc : cmd.SharedActor.CheckTarget true true = none)
    (hg : cmd.ShowGUID = false) (hp : cmd.Params = true) :
    ((paramsAnswer cmd).2.2 = none →
      cmd.Execute X
          = ([Event.CheckTarget true true, paramsCall cmd,
              Event.UI (DisplayWarnings (paramsAnswer cmd).2.1),
              Event.UI (DisplayText (X.MarshalIndent (paramsAnswer cmd).1 "" "  ") [])],
            none)
        ∧ output (cmd.Execute X).1
          = [DisplayWarnings (paramsAnswer cmd).2.1,
              DisplayText (X.MarshalIndent (paramsAnswer cmd).1 "" "  ") []])
    ∧ (∀ e, (paramsAnswer cmd).2.2 = some e →
      cmd.Execute X
          = ([Event.CheckTarget true true, paramsCall cmd,
              Event.UI (DisplayWarnings (paramsAnswer cmd).2.1)],
            some e)
        ∧ output (cmd.Execute X).1 = [DisplayWarnings (paramsAnswer cmd).2.1]) := by
  constructor
  · intro hr
    simp [Execute_checked X cmd hc, hg, hp, fetchAndDisplayParams_ok X cmd hr, output,
      paramsCall]
  · intro e hr
    simp [Execute_checked X cmd hc, hg, hp, fetchAndDisplayParams_err X cmd e hr, output,
      paramsCall]

/-- C16 (witness): the sample command on the params path, once succeeding and once
failing with `boom`. -/
theorem C16_params_path_witness :
    (sampleCommand false true sampleDetails none none).SharedActor.CheckTarget true true = none
      ∧ (sampleCommand false true sampleDetails none none).ShowGUID = false
      ∧ (sampleCommand false true sampleDetails none none).Params = true
      ∧ (paramsAnswer (sampleCommand false true sampleDetails none none)).2.2 = none
      ∧ ((sampleCommand false true sampleDetails none none).Execute sampleExternals
            = ([Event.CheckTarget true true,
                Event.GetServiceInstanceParameters "my-db" "space-guid",
                Event.UI (DisplayWarnings ["W1"]),
                Event.UI (DisplayText "\x7b\x7d" [])],
              none)
          ∧ output ((sampleCommand false true sampleDetails none none).Execute
              sampleExternals).1
            = [DisplayWarnings ["W1"], DisplayText "\x7b\x7d" []])
      ∧ (paramsAnswer (sampleCommand false true sampleDetails none (some "boom"))).2.2
          = some "boom"
      ∧ ((sampleCommand false true sampleDetails none (some "boom")).Execute sampleExternals
            = ([Event.CheckTarget true true,
                Event.GetServiceInstanceParameters "my-db" "space-guid",
                Event.UI (DisplayWarnings ["W1"])],
              some "boom")
          ∧ output ((sampleCommand false true sampleDetails none (some "boom")).Execute
              sampleExternals).1
            = [DisplayWarnings ["W1"]]) :=
  ⟨rfl, rfl, rfl, rfl,
    (C16_params_path sampleExternals (sampleCommand false true sampleDetails none none)
      rfl rfl rfl).1 rfl,
    rfl,
    (C16_params_path sampleExternals
      (sampleCommand false true sampleDetails none (some "boom")) rfl rfl rfl).2 "boom" rfl⟩

/-! ## The properties table and the intro -/

/-- C17: the properties table has a shape fixed by the provisioning type.  For
`UserProvided` it has six rows keyed (through `TranslateText`) `name:`, `guid:`,
`type:`, `tags:`, `route service url:`, `syslog drain url:` in this order; for a
Managed instance (any other type) eleven rows keyed `name:`, `guid:`, `type:`,
`broker:`, `offering:`, `plan:`, `tags:`, `offering tags:`, `description:`,
`documentation:`, `dashboard url:`; each value is the corresponding field of the
detail, and the table is followed by one blank line.  On a successful detail path the
table of the type of the fetched detail comes right after the display of the
warnings. -/
theorem C17_properties_table (X : Externals) (cmd : ServiceCommand)
    (d : v7action.ServiceInstanceDetails) (ws : v7action.Warnings)
    (hu : cmd.Config.CurrentUser.2 = none) (hr : detailsAnswer cmd = (d, ws, none)) :
    cmd.displayPropertiesUserProvided X d
        = [DisplayKeyValueTable ""
            [[cmd.UI.TranslateText "name:", d.Name],
             [cmd.UI.TranslateText "guid:", d.GUID],
             [cmd.UI.TranslateText "type:", d.Type_],
             [cmd.UI.TranslateText "tags:", X.TagsString d.Tags],
             [cmd.UI.TranslateText "route service url:", d.RouteServiceURL.String],
             [cmd.UI.TranslateText "syslog drain url:", d.SyslogDrainURL.String]]
            3,
          DisplayNewline]
      ∧ cmd.displayPropertiesManaged X d
        = [DisplayKeyValueTable ""
            [[cmd.UI.TranslateText "name:", d.Name],
             [cmd.UI.TranslateText "guid:", d.GUID],
             [cmd.UI.TranslateText "type:", d.Type_],
             [cmd.UI.TranslateText "broker:", d.ServiceBrokerName],
             [cmd.UI.TranslateText "offering:", d.ServiceOffering.Name],
             [cmd.UI.TranslateText "plan:", d.ServicePlan.Name],
             [cmd.UI.TranslateText "tags:", X.TagsString d.Tags],
             [cmd.UI.TranslateText "offering tags:", X.TagsString d.ServiceOffering.Tags],
             [cmd.UI.TranslateText "description:", d.ServiceOffering.Description],
             [cmd.UI.TranslateText "documentation:", d.ServiceOffering.DocumentationURL],
             [cmd.UI.TranslateText "dashboard url:", d.DashboardURL.String]]
            3,
          DisplayNewline]
      ∧ (d.Type_ = X.UserProvidedServiceInstance →
          ((output (cmd.fetchAndDisplayDetails X).1).drop 3).take 2
            = cmd.displayPropertiesUserProvided X d)
      ∧ (d.Type_ ≠ X.UserProvidedServiceInstance →
          ((output (cmd.fetchAndDisplayDetails X).1).drop 3).take 2
            = cmd.displayPropertiesManaged X d) := by
  have hout := (output_fetchAndDisplayDetails_ok X cmd d ws hu hr).2
  refine ⟨rfl, rfl, fun ht => ?_, fun ht => ?_⟩
  · rw [hout]
    simp [detailSections, ht, ServiceCommand.displayPropertiesUserProvided]
  · rw [hout]
    simp [detailSections, ht, ServiceCommand.displayPropertiesManaged]

/-- C17 (witness): the properties tables of the sample user-provided instance and of
the sample managed instance, on the detail path. -/
theorem C17_properties_table_witness :
    (sampleCommand false false sampleUserProvided none none).Config.CurrentUser.2 = none
      ∧ detailsAnswer (sampleCommand false false sampleUserProvided none none)
          = (sampleUserProvided, ["W1"], none)
      ∧ sampleUserProvided.Type_ = sampleExternals.UserProvidedServiceInstance
      ∧ ((output ((sampleCommand false false sampleUserProvided none
            none).fetchAndDisplayDetails sampleExternals).1).drop 3).take 2
          = [DisplayKeyValueTable ""
              [["name:", "my-ups"], ["guid:", "guid-2"], ["type:", "user-provided"],
                ["tags:", ""], ["route service url:", "https://route.example.com"],
                ["syslog drain url:", ""]]
              3,
            DisplayNewline]
      ∧ detailsAnswer (sampleCommand false false sampleDetails none none)
          = (sampleDetails, ["W1"], none)
      ∧ sampleDetails.Type_ ≠ sampleExternals.UserProvidedServiceInstance
      ∧ ((output ((sampleCommand false false sampleDetails none
            none).fetchAndDisplayDetails sampleExternals).1).drop 3).take 2
          = [DisplayKeyValueTable ""
              [["name:", "my-db"], ["guid:", "guid-1"], ["type:", "managed"],
                ["broker:", "broker-1"], ["offering:", "postgres"], ["plan:", "small"],
                ["tags:", "sql"], ["offering tags:", "db"], ["description:", "a database"],
                ["documentation:", "https://doc.example.com"],
                ["dashboard url:", "https://dash.example.com"]]
              3,
            DisplayNewline] :=
  ⟨rfl, rfl, rfl,
    (C17_properties_table sampleExternals
      (sampleCommand false false sampleUserProvided none none) sampleUserProvided ["W1"]
      rfl rfl).2.2.1 rfl,
    rfl, by decide,
    (C17_properties_table sampleExternals
      (sampleCommand false false sampleDetails none none) sampleDetails ["W1"]
      rfl rfl).2.2.2 (by decide)⟩

/-- C18: on the detail path, when `CurrentUser` succeeds, the command first emits the
intro line, carrying the name of the service instance, of the targeted organization,
of the targeted space and of the user, then one blank line; only then does it issue
the full-detail fetch and display the warnings.  So the first two output events are
the intro line and the blank line, whether the fetch succeeds or not. -/
theorem C18_intro_first (X : Externals) (cmd : ServiceCommand)
    (hc : cmd.SharedActor.CheckTarget true true = none)
    (hg : cmd.ShowGUID = false) (hp : cmd.Params = false)
    (hu : cmd.Config.CurrentUser.2 = none) :
    (cmd.Execute X).1.take 6
        = [Event.CheckTarget true true, Event.CurrentUser,
            Event.UI (DisplayTextWithFlavor
              "Showing info of service \x7b\x7b.ServiceInstanceName\x7d\x7d in org \x7b\x7b.OrgName\x7d\x7d / space \x7b\x7b.SpaceName\x7d\x7d as \x7b\x7b.Username\x7d\x7d..."
              [("ServiceInstanceName", cmd.RequiredArgs.ServiceInstance),
               ("OrgName", cmd.Config.TargetedOrganization.Name),
               ("SpaceName", cmd.Config.TargetedSpace.Name),
               ("Username", cmd.Config.CurrentUser.1.Name)]),
            Event.UI DisplayNewline,
            Event.GetServiceInstanceDetails cmd.RequiredArgs.ServiceInstance
              cmd.Config.TargetedSpace.GUID false,
            Event.UI (DisplayWarnings (detailsAnswer cmd).2.1)]
      ∧ (output (cmd.Execute X).1).take 2 = [introLine cmd, DisplayNewline] := by
  cases hr : (detailsAnswer cmd).2.2 with
  | none =>
    rw [Execute_checked X cmd hc]
    simp only [hg, hp, Bool.false_eq_true, if_false, fetchAndDisplayDetails_ok X cmd hu hr,
      ← List.cons_append, output_append, output_map_UI]
    simp [output, detailsHead, detailsCall, introLine]
  | some e =>
    simp [Execute_checked X cmd hc, hg, hp, fetchAndDisplayDetails_err X cmd e hu hr,
      output, detailsHead, detailsCall, introLine]

/-- C18 (witness): the sample command on the detail path. -/
theorem C18_intro_first_witness :
    (sampleCommand false false sampleDetails none none).SharedActor.CheckTarget true true = none
      ∧ (sampleCommand false false sampleDetails none none).ShowGUID = false
      ∧ (sampleCommand false false sampleDetails none none).Params = false
      ∧ (sampleCommand false false sampleDetails none none).Config.CurrentUser.2 = none
      ∧ ((sampleCommand false false sampleDetails none none).Execute sampleExternals).1.take 6
        = [Event.CheckTarget true true, Event.CurrentUser,
            Event.UI (DisplayTextWithFlavor
              "Showing info of service \x7b\x7b.ServiceInstanceName\x7d\x7d in org \x7b\x7b.OrgName\x7d\x7d / space \x7b\x7b.SpaceName\x7d\x7d as \x7b\x7b.Username\x7d\x7d..."
              [("ServiceInstanceName", "my-db"), ("OrgName", "acme"), ("SpaceName", "dev"),
                ("Username", "admin")]),
            Event.UI DisplayNewline,
            Event.GetServiceInstanceDetails "my-db" "space-guid" false,
            Event.UI (DisplayWarnings ["W1"])]
      ∧ (output ((sampleCommand false false sampleDetails none none).Execute
            sampleExternals).1).take 2
        = [introLine (sampleCommand false false sampleDetails none none), DisplayNewline] :=
  ⟨rfl, rfl, rfl, rfl,
    C18_intro_first sampleExternals (sampleCommand false false sampleDetails none none)
      rfl rfl rfl rfl⟩

/-! ## The errors of the command -/

/-- C19 (counterexample): two invocations return an error although the retrieval call
of the selected path answers none (it is not even issued): one whose target check
fails, one on the detail path whose `CurrentUser` fails. -/
theorem C19_error_without_retrieval_failure :
    ((sampleUntargeted true false).Execute sampleExternals).2 = some "no target"
      ∧ (guidAnswer (sampleUntargeted true false)).2.2 = none
      ∧ retrievalCalls ((sampleUntargeted true false).Execute sampleExternals).1 = []
      ∧ ((sampleCommand false false sampleDetails (some "no user") none).Execute
          sampleExternals).2 = some "no user"
      ∧ (detailsAnswer (sampleCommand false false sampleDetails (some "no user") none)).2.2
          = none
      ∧ retrievalCalls ((sampleCommand false false sampleDetails (some "no user") none).Execute
          sampleExternals).1 = [] := by
  decide

/-- C19 (amended): the command reports failure only by propagating the error of a
collaborator: `Execute` returns the error of `CheckTarget` when it fails; otherwise, on
the guid and params paths, the error (or nil) of the retrieval call of the path; on
the detail path the error of `CurrentUser` when it fails, and otherwise the error (or
nil) of the full-detail fetch.  No error originates in the command. -/
theorem C19_error_sources (X : Externals) (cmd : ServiceCommand) :
    (∀ e, cmd.SharedActor.CheckTarget true true = some e → (cmd.Execute X).2 = some e)
    ∧ (cmd.SharedActor.CheckTarget true true = none →
        (cmd.ShowGUID = true → (cmd.Execute X).2 = (guidAnswer cmd).2.2)
        ∧ (cmd.ShowGUID = false → cmd.Params = true →
            (cmd.Execute X).2 = (paramsAnswer cmd).2.2)
        ∧ (cmd.ShowGUID = false → cmd.Params = false →
            (∀ e, cmd.Config.CurrentUser.2 = some e → (cmd.Execute X).2 = some e)
            ∧ (cmd.Config.CurrentUser.2 = none →
                (cmd.Execute X).2 = (detailsAnswer cmd).2.2))) := by
  constructor
  · intro e hc
    simp [ServiceCommand.Execute, hc]
  · intro hc
    refine ⟨fun hg => ?_, fun hg hp => ?_, fun hg hp => ⟨fun e hu => ?_, fun hu => ?_⟩⟩
    · cases hr : (guidAnswer cmd).2.2 with
      | none => simp [Execute_checked X cmd hc, hg, fetchAndDisplayGUID_ok cmd hr]
      | some e => simp [Execute_checked X cmd hc, hg, fetchAndDisplayGUID_err cmd e hr]
    · cases hr : (paramsAnswer cmd).2.2 with
      | none => simp [Execute_checked X cmd hc, hg, hp, fetchAndDisplayParams_ok X cmd hr]
      | some e =>
        simp [Execute_checked X cmd hc, hg, hp, fetchAndDisplayParams_err X cmd e hr]
    · simp [Execute_checked X cmd hc, hg, hp, fetchAndDisplayDetails_userErr X cmd e hu]
    · cases hr : (detailsAnswer cmd).2.2 with
      | none =>
        simp [Execute_checked X cmd hc, hg, hp, fetchAndDisplayDetails_ok X cmd hu hr]
      | some e =>
        simp [Execute_checked X cmd hc, hg, hp, fetchAndDisplayDetails_err X cmd e hu hr]

/-- C19 (witness): the amended statement at sample commands: a failing target check, a
failing retrieval on the guid and params paths, a failing `CurrentUser` and a
succeeding fetch on the detail path. -/
theorem C19_error_sources_witness :
    (sampleUntargeted false true).SharedActor.CheckTarget true true = some "no target"
      ∧ ((sampleUntargeted false true).Execute sampleExternals).2 = some "no target"
      ∧ (sampleCommand true false sampleDetails none (some "boom")).SharedActor.CheckTarget
          true true = none
      ∧ (sampleCommand true false sampleDetails none (some "boom")).ShowGUID = true
      ∧ ((sampleCommand true false sampleDetails none (some "boom")).Execute
          sampleExternals).2 = some "boom"
      ∧ (sampleCommand false true sampleDetails none (some "boom")).Params = true
      ∧ ((sampleCommand false true sampleDetails none (some "boom")).Execute
          sampleExternals).2 = some "boom"
      ∧ (sampleCommand false false sampleDetails (some "no user") none).Config.CurrentUser.2
          = some "no user"
      ∧ ((sampleCommand false false sampleDetails (some "no user") none).Execute
          sampleExternals).2 = some "no user"
      ∧ (sampleCommand false false sampleDetails none none).Config.CurrentUser.2 = none
      ∧ ((sampleCommand false false sampleDetails none none).Execute sampleExternals).2
          = none :=
  ⟨rfl,
    (C19_error_sources sampleExternals (sampleUntargeted false true)).1 "no target" rfl,
    rfl, rfl,
    ((C19_error_sources sampleExternals
      (sampleCommand true false sampleDetails none (some "boom"))).2 rfl).1 rfl,
    rfl,
    ((C19_error_sources sampleExternals
      (sampleCommand false true sampleDetails none (some "boom"))).2 rfl).2.1 rfl rfl,
    rfl,
    (((C19_error_sources sampleExternals
      (sampleCommand false false sampleDetails (some "no user") none)).2 rfl).2.2
        rfl rfl).1 "no user" rfl,
    rfl,
    (((C19_error_sources sampleExternals
      (sampleCommand false false sampleDetails none none)).2 rfl).2.2 rfl rfl).2 rfl⟩

/-- C20: when `SharedActor.CheckTarget(true, true)` returns an error, `Execute` returns
exactly that error; its only call is the target check, so it issues no retrieval call
and emits no output, whatever the flags `ShowGUID` and `Params` are. -/
theorem C20_check_target_failure (X : Externals) (cmd : ServiceCommand) (e : GoError)
    (hc : cmd.SharedActor.CheckTarget true true = some e) :
    cmd.Execute X = ([Event.CheckTarget true true], some e)
      ∧ retrievalCalls (cmd.Execute X).1 = []
      ∧ output (cmd.Execute X).1 = [] := by
  have h : cmd.Execute X = ([Event.CheckTarget true true], some e) := by
    simp [ServiceCommand.Execute, hc]
  rw [h]
  exact ⟨rfl, rfl, rfl⟩

/-- C20 (witness): the sample command whose target check fails, with each of the four
combinations of the flags. -/
theorem C20_check_target_failure_witness :
    (sampleUntargeted false false).SharedActor.CheckTarget true true = some "no target"
      ∧ ((sampleUntargeted false false).Execute sampleExternals
            = ([Event.CheckTarget true true], some "no target")
          ∧ retrievalCalls ((sampleUntargeted false false).Execute sampleExternals).1 = []
          ∧ output ((sampleUntargeted false false).Execute sampleExternals).1 = [])
      ∧ ((sampleUntargeted false true).Execute sampleExternals
            = ([Event.CheckTarget true true], some "no target")
          ∧ retrievalCalls ((sampleUntargeted false true).Execute sampleExternals).1 = []
          ∧ output ((sampleUntargeted false true).Execute sampleExternals).1 = [])
      ∧ ((sampleUntargeted true false).Execute sampleExternals
            = ([Event.CheckTarget true true], some "no target")
          ∧ retrievalCalls ((sampleUntargeted true false).Execute sampleExternals).1 = []
          ∧ output ((sampleUntargeted true false).Execute sampleExternals).1 = [])
      ∧ ((sampleUntargeted true true).Execute sampleExternals
            = ([Event.CheckTarget true true], some "no target")
          ∧ retrievalCalls ((sampleUntargeted true true).Execute sampleExternals).1 = []
          ∧ output ((sampleUntargeted true true).Execute sampleExternals).1 = []) :=
  ⟨rfl,
    C20_check_target_failure sampleExternals (sampleUntargeted false false) "no target" rfl,
    C20_check_target_failure sampleExternals (sampleUntargeted false true) "no target" rfl,
    C20_check_target_failure sampleExternals (sampleUntargeted true false) "no target" rfl,
    C20_check_target_failure sampleExternals (sampleUntargeted true true) "no target" rfl⟩

/-! ## A failing `CurrentUser`, and the dispatch on the provisioning type -/

/-- C21: on the detail path, when `Config.CurrentUser` returns an error, the command
returns exactly that error; its calls are the target check and `CurrentUser` only, so
it emits nothing (no intro, no blank line, no warnings) and never issues
`GetServiceInstanceDetails`. -/
theorem C21_current_user_failure (X : Externals) (cmd : ServiceCommand) (e : GoError)
    (hc : cmd.SharedActor.CheckTarget true true = none)
    (hg : cmd.ShowGUID = false) (hp : cmd.Params = false)
    (hu : cmd.Config.CurrentUser.2 = some e) :
    cmd.fetchAndDisplayDetails X = ([Event.CurrentUser], some e)
      ∧ cmd.Execute X = ([Event.CheckTarget true true, Event.CurrentUser], some e)
      ∧ output (cmd.Execute X).1 = []
      ∧ retrievalCalls (cmd.Execute X).1 = []
      ∧ detailsCall cmd ∉ (cmd.Execute X).1 := by
  have h : cmd.Execute X = ([Event.CheckTarget true true, Event.CurrentUser], some e) := by
    simp [Execute_checked X cmd hc, hg, hp, fetchAndDisplayDetails_userErr X cmd e hu]
  rw [h]
  refine ⟨fetchAndDisplayDetails_userErr X cmd e hu, rfl, rfl, rfl, ?_⟩
  simp [detailsCall]

/-- C21 (witness): the sample command on the detail path, whose `CurrentUser` fails
with `no user`. -/
theorem C21_current_user_failure_witness :
    (sampleCommand false false sampleDetails (some "no user") none).SharedActor.CheckTarget
        true true = none
      ∧ (sampleCommand false false sampleDetails (some "no user") none).ShowGUID = false
      ∧ (sampleCommand false false sampleDetails (some "no user") none).Params = false
      ∧ (sampleCommand false false sampleDetails (some "no user") none).Config.CurrentUser.2
          = some "no user"
      ∧ (sampleCommand false false sampleDetails (some "no user") none).fetchAndDisplayDetails
          sampleExternals = ([Event.CurrentUser], some "no user")
      ∧ (sampleCommand false false sampleDetails (some "no user") none).Execute sampleExternals
          = ([Event.CheckTarget true true, Event.CurrentUser], some "no user")
      ∧ output ((sampleCommand false false sampleDetails (some "no user") none).Execute
          sampleExternals).1 = []
      ∧ retrievalCalls ((sampleCommand false false sampleDetails (some "no user") none).Execute
          sampleExternals).1 = []
      ∧ detailsCall (sampleCommand false false sampleDetails (some "no user") none)
          ∉ ((sampleCommand false false sampleDetails (some "no user") none).Execute
              sampleExternals).1 :=
  ⟨rfl, rfl, rfl, rfl,
    C21_current_user_failure sampleExternals
      (sampleCommand false false sampleDetails (some "no user") none) "no user"
      rfl rfl rfl rfl⟩

theorem keyValueTable_lastOperation (cmd : ServiceCommand)
    (d : v7action.ServiceInstanceDetails) (pfx : String) (table : List (List String))
    (padding : Nat)
    (h : DisplayKeyValueTable pfx table padding ∈ cmd.displayLastOperation d) :
    table.length = 4 := by
  by_cases hz : d.LastOperation = resources.LastOperation.zero
  · rw [displayLastOperation_zero cmd d hz] at h
    simp [lastOperationHeading, noLastOperationText] at h
  · rw [displayLastOperation_nonzero cmd d hz] at h
    simp [lastOperationHeading, lastOperationTable] at h
    rw [h.2.1]
    rfl

theorem keyValueTable_boundApps (X : Externals) (d : v7action.ServiceInstanceDetails)
    (pfx : String) (table : List (List String)) (padding : Nat) :
    DisplayKeyValueTable pfx table padding ∉ ServiceCommand.displayBoundApps X d := by
  by_cases h : d.BoundApps = []
  · rw [displayBoundApps_empty X d h]
    simp
  · rw [displayBoundApps_nonempty X d h]
    simp

theorem keyValueTable_sharingInfo (X : Externals) (d : v7action.ServiceInstanceDetails)
    (pfx : String) (table : List (List String)) (padding : Nat) :
    DisplayKeyValueTable pfx table padding ∉ ServiceCommand.displaySharingInfo X d := by
  intro h
  rcases (displaySharingInfo_calls X d).2 _ h with h1 | h1
  · simp [UICall.isSharingCall] at h1
  · simp at h1

theorem keyValueTable_upgrades (d : v7action.ServiceInstanceDetails)
    (pfx : String) (table : List (List String)) (padding : Nat) :
    DisplayKeyValueTable pfx table padding ∉ ServiceCommand.displayUpgrades d := by
  intro h
  rcases (displayUpgrades_calls d).2 _ h with h1 | h1
  · simp [UICall.isUpgradeCall] at h1
  · simp at h1

theorem sharingHeader_mem (X : Externals) (d : v7action.ServiceInstanceDetails) :
    DisplayText "Sharing:" [] ∈ ServiceCommand.displaySharingInfo X d := by
  have h := (displaySharingInfo_calls X d).1
  cases hl : ServiceCommand.displaySharingInfo X d with
  | nil => simp [hl] at h
  | cons a l =>
    simp only [hl, List.head?_cons, Option.some.injEq] at h
    simp [h]

theorem upgradeHeader_mem (d : v7action.ServiceInstanceDetails) :
    DisplayText "Upgrading:" [] ∈ ServiceCommand.displayUpgrades d := by
  have h := (displayUpgrades_calls d).1
  cases hl : ServiceCommand.displayUpgrades d with
  | nil => simp [hl] at h
  | cons a l =>
    simp only [hl, List.head?_cons, Option.some.injEq] at h
    simp [h]

theorem detailSections_userProvided_plain (X : Externals) (cmd : ServiceCommand)
    (d : v7action.ServiceInstanceDetails) (ht : d.Type_ = X.UserProvidedServiceInstance) :
    ∀ call ∈ detailSections X cmd d,
      call.isSharingCall = false ∧ call.isUpgradeCall = false := by
  intro call hmem
  simp only [detailSections, ht, if_true, List.mem_append] at hmem
  rcases hmem with (h | h) | h
  · exact displayPropertiesUserProvided_plain X cmd d call h
  · exact displayLastOperation_plain cmd d call h
  · exact displayBoundApps_plain X d call h

theorem keyValueTable_detailSections (X : Externals) (cmd : ServiceCommand)
    (d : v7action.ServiceInstanceDetails) (ws : v7action.Warnings)
    (pfx : String) (table : List (List String)) (padding : Nat)
    (h : DisplayKeyValueTable pfx table padding
      ∈ [introLine cmd, DisplayNewline, DisplayWarnings ws] ++ detailSections X cmd d) :
    (d.Type_ = X.UserProvidedServiceInstance ∧ table.length = 6)
      ∨ (d.Type_ ≠ X.UserProvidedServiceInstance ∧ table.length = 11)
      ∨ table.length = 4 := by
  rw [List.mem_append] at h
  rcases h with h | h
  · simp [introLine] at h
  · by_cases ht : d.Type_ = X.UserProvidedServiceInstance
    · simp only [detailSections, ht, if_true, List.mem_append] at h
      rcases h with (h | h) | h
      · simp [ServiceCommand.displayPropertiesUserProvided] at h
        left
        refine ⟨ht, ?_⟩
        rw [h.2.1]
        rfl
      · exact Or.inr (Or.inr (keyValueTable_lastOperation cmd d pfx table padding h))
      · exact absurd h (keyValueTable_boundApps X d pfx table padding)
    · simp only [detailSections, ht, if_false, List.mem_append] at h
      rcases h with (((h | h) | h) | h) | h
      · simp [ServiceCommand.displayPropertiesManaged] at h
        right; left
        refine ⟨ht, ?_⟩
        rw [h.2.1]
        rfl
      · exact Or.inr (Or.inr (keyValueTable_lastOperation cmd d pfx table padding h))
      · exact absurd h (keyValueTable_boundApps X d pfx table padding)
      · exact absurd h (keyValueTable_sharingInfo X d pfx table padding)
      · exact absurd h (keyValueTable_upgrades d pfx table padding)

/-- C22: the dispatch on the provisioning type is total, with the Managed layout as the
fallback.  For every fetched detail whose `Type` is not `UserProvided` (the empty string
and unknown types included) the output of the detail path is the intro, the warnings,
the eleven-row properties table, then the last-operation, bound-apps, sharing and
upgrade sections; for `Type` equal to `UserProvided` it is the intro, the warnings, the
six-row table, then the last-operation and bound-apps sections.  So the output holds an
eleven-row key-value table, the header `Sharing:` and the header `Upgrading:` exactly
when the type is not `UserProvided`, and a six-row key-value table exactly when it
is. -/
theorem C22_managed_layout_is_fallback (X : Externals) (cmd : ServiceCommand)
    (d : v7action.ServiceInstanceDetails) (ws : v7action.Warnings)
    (hu : cmd.Config.CurrentUser.2 = none) (hr : detailsAnswer cmd = (d, ws, none)) :
    (d.Type_ ≠ X.UserProvidedServiceInstance →
      output (cmd.fetchAndDisplayDetails X).1
        = [introLine cmd, DisplayNewline, DisplayWarnings ws]
          ++ cmd.displayPropertiesManaged X d
          ++ cmd.displayLastOperation d
          ++ ServiceCommand.displayBoundApps X d
          ++ ServiceCommand.displaySharingInfo X d
          ++ ServiceCommand.displayUpgrades d)
    ∧ (d.Type_ = X.UserProvidedServiceInstance →
      output (cmd.fetchAndDisplayDetails X).1
        = [introLine cmd, DisplayNewline, DisplayWarnings ws]
          ++ cmd.displayPropertiesUserProvided X d
          ++ cmd.displayLastOperation d
          ++ ServiceCommand.displayBoundApps X d)
    ∧ ((∃ table : List (List String), table.length = 11
          ∧ DisplayKeyValueTable "" table 3 ∈ output (cmd.fetchAndDisplayDetails X).1)
        ↔ d.Type_ ≠ X.UserProvidedServiceInstance)
    ∧ ((∃ table : List (List String), table.length = 6
          ∧ DisplayKeyValueTable "" table 3 ∈ output (cmd.fetchAndDisplayDetails X).1)
        ↔ d.Type_ = X.UserProvidedServiceInstance)
    ∧ (DisplayText "Sharing:" [] ∈ output (cmd.fetchAndDisplayDetails X).1
        ↔ d.Type_ ≠ X.UserProvidedServiceInstance)
    ∧ (DisplayText "Upgrading:" [] ∈ output (cmd.fetchAndDisplayDetails X).1
        ↔ d.Type_ ≠ X.UserProvidedServiceInstance) := by
  have hout := (output_fetchAndDisplayDetails_ok X cmd d ws hu hr).2
  rw [hout]
  refine ⟨fun ht => ?_, fun ht => ?_, ⟨?_, fun ht => ?_⟩, ⟨?_, fun ht => ?_⟩,
    ⟨fun h ht => ?_, fun ht => ?_⟩, ⟨fun h ht => ?_, fun ht => ?_⟩⟩
  · simp [detailSections, ht]
  · simp [detailSections, ht]
  · rintro ⟨table, hlen, hmem⟩
    rcases keyValueTable_detailSections X cmd d ws "" table 3 hmem with h | h | h
    · omega
    · exact h.1
    · omega
  · have hm : ∃ table : List (List String), table.length = 11
        ∧ cmd.displayPropertiesManaged X d
          = [DisplayKeyValueTable "" table 3, DisplayNewline] := by
      refine ⟨_, ?_, rfl⟩
      rfl
    obtain ⟨table, hlen, heq⟩ := hm
    refine ⟨table, hlen, ?_⟩
    simp [detailSections, ht, heq]
  · rintro ⟨table, hlen, hmem⟩
    rcases keyValueTable_detailSections X cmd d ws "" table 3 hmem with h | h | h
    · exact h.1
    · omega
    · omega
  · have hm : ∃ table : List (List String), table.length = 6
        ∧ cmd.displayPropertiesUserProvided X d
          = [DisplayKeyValueTable "" table 3, DisplayNewline] := by
      refine ⟨_, ?_, rfl⟩
      rfl
    obtain ⟨table, hlen, heq⟩ := hm
    refine ⟨table, hlen, ?_⟩
    simp [detailSections, ht, heq]
  · rw [List.mem_append] at h
    rcases h with h | h
    · simp [introLine] at h
    · have hp := (detailSections_userProvided_plain X cmd d ht _ h).1
      simp [UICall.isSharingCall, sharingTemplates] at hp
  · simp only [detailSections, ht, if_false, List.mem_append]
    exact Or.inr (Or.inl (Or.inr (sharingHeader_mem X d)))
  · rw [List.mem_append] at h
    rcases h with h | h
    · simp [introLine] at h
    · have hp := (detailSections_userProvided_plain X cmd d ht _ h).2
      simp [UICall.isUpgradeCall, upgradeTemplates] at hp
  · simp only [detailSections, ht, if_false, List.mem_append]
    exact Or.inr (Or.inr (upgradeHeader_mem d))

/-- C22 (witness): the sample instance with the empty string as its type and the one
with an unknown type get the Managed layout; the sample user-provided instance gets
the six-row layout without the sharing and upgrade headers. -/
theorem C22_managed_layout_is_fallback_witness :
    (sampleCommand false false sampleUntyped none none).Config.CurrentUser.2 = none
      ∧ detailsAnswer (sampleCommand false false sampleUntyped none none)
          = (sampleUntyped, ["W1"], none)
      ∧ sampleUntyped.Type_ = ""
      ∧ sampleUntyped.Type_ ≠ sampleExternals.UserProvidedServiceInstance
      ∧ output ((sampleCommand false false sampleUntyped none none).fetchAndDisplayDetails
            sampleExternals).1
          = [introLine (sampleCommand false false sampleUntyped none none), DisplayNewline,
              DisplayWarnings ["W1"]]
            ++ (sampleCommand false false sampleUntyped none none).displayPropertiesManaged
                sampleExternals sampleUntyped
            ++ (sampleCommand false false sampleUntyped none none).displayLastOperation
                sampleUntyped
            ++ ServiceCommand.displayBoundApps sampleExternals sampleUntyped
            ++ ServiceCommand.displaySharingInfo sampleExternals sampleUntyped
            ++ ServiceCommand.displayUpgrades sampleUntyped
      ∧ detailsAnswer (sampleCommand false false sampleUnknownType none none)
          = (sampleUnknownType, ["W1"], none)
      ∧ sampleUnknownType.Type_ ≠ sampleExternals.UserProvidedServiceInstance
      ∧ (∃ table : List (List String), table.length = 11
          ∧ DisplayKeyValueTable "" table 3
            ∈ output ((sampleCommand false false sampleUnknownType none
                none).fetchAndDisplayDetails sampleExternals).1)
      ∧ DisplayText "Sharing:" []
          ∈ output ((sampleCommand false false sampleUnknownType none
              none).fetchAndDisplayDetails sampleExternals).1
      ∧ DisplayText "Upgrading:" []
          ∈ output ((sampleCommand false false sampleUnknownType none
              none).fetchAndDisplayDetails sampleExternals).1
      ∧ detailsAnswer (sampleCommand false false sampleUserProvided none none)
          = (sampleUserProvided, ["W1"], none)
      ∧ sampleUserProvided.Type_ = sampleExternals.UserProvidedServiceInstance
      ∧ (∃ table : List (List String), table.length = 6
          ∧ DisplayKeyValueTable "" table 3
            ∈ output ((sampleCommand false false sampleUserProvided none
                none).fetchAndDisplayDetails sampleExternals).1)
      ∧ DisplayText "Sharing:" []
          ∉ output ((sampleCommand false false sampleUserProvided none
              none).fetchAndDisplayDetails sampleExternals).1
      ∧ DisplayText "Upgrading:" []
          ∉ output ((sampleCommand false false sampleUserProvided none
              none).fetchAndDisplayDetails sampleExternals).1 :=
  ⟨rfl, rfl, rfl, by decide,
    (C22_managed_layout_is_fallback sampleExternals
      (sampleCommand false false sampleUntyped none none) sampleUntyped ["W1"]
      rfl rfl).1 (by decide),
    rfl, by decide,
    (C22_managed_layout_is_fallback sampleExternals
      (sampleCommand false false sampleUnknownType none none) sampleUnknownType ["W1"]
      rfl rfl).2.2.1.mpr (by decide),
    (C22_managed_layout_is_fallback sampleExternals
      (sampleCommand false false sampleUnknownType none none) sampleUnknownType ["W1"]
      rfl rfl).2.2.2.2.1.mpr (by decide),
    (C22_managed_layout_is_fallback sampleExternals
      (sampleCommand false false sampleUnknownType none none) sampleUnknownType ["W1"]
      rfl rfl).2.2.2.2.2.mpr (by decide),
    rfl, rfl,
    (C22_managed_layout_is_fallback sampleExternals
      (sampleCommand false false sampleUserProvided none none) sampleUserProvided ["W1"]
      rfl rfl).2.2.2.1.mpr rfl,
    fun h => (C22_managed_layout_is_fallback sampleExternals
      (sampleCommand false false sampleUserProvided none none) sampleUserProvided ["W1"]
      rfl rfl).2.2.2.2.1.mp h rfl,
    fun h => (C22_managed_layout_is_fallback sampleExternals
      (sampleCommand false false sampleUserProvided none none) sampleUserProvided ["W1"]
      rfl rfl).2.2.2.2.2.mp h rfl⟩

end v7
